import Mathlib

set_option linter.unusedVariables false

/-!
Shallow embedding of the LadChat recommendation core
(server/ai/rag_engine.py, server/ai/chroma_client.py, server/ai/embedding_tasks.py,
server/models/hangout.py, server/models/embeddings.py, server/models/friendship.py).

Modelling conventions:
* Python floats are modelled as exact rationals (the claims under verification
  depend only on field arithmetic, comparisons and zero tests, not on IEEE-754
  rounding).  Timestamps are seconds since an arbitrary epoch, as `Int`.
* The external collaborators (the chromadb backend reached through the
  `ChromaClient` methods, the SQLAlchemy session, and the embedding model
  service) are passed in as oracle arguments of type `Except String _`:
  `Except.error c` models the collaborator raising an exception with message
  `c`.  The repository code surrounding those calls (its `try/except` blocks,
  filters, ordering, truncation and formatting) is translated literally.
* `logger.error/warning/info` calls are modelled by accumulating `LogEntry`
  values; an f-string interpolating an exception `e` is modelled by storing the
  message text and the cause separately.
* Writes to the durable store and to the vector index are recorded as a
  `StoreOp` trace in program order (`stageRow` = `db.add`/in-place ORM update,
  `commit` = `db.commit()`, `indexWrite` = a `chroma_client.add_*` call).
* Python truthiness on the values that reach the translated code is modelled
  exactly: `None` and the empty list are falsy (`Option.isNone`/`List.isEmpty`),
  the numbers `0`/`0.0` are falsy (`= 0` tests), non-empty dicts are truthy.
-/

/-- A log record: severity level, message text, and the exception cause when
the message interpolates one. -/
structure LogEntry where
  level : String
  text : String
  cause : Option String
deriving DecidableEq, Repr

/-- One store operation, in program order, of an embedding upsert path. -/
inductive StoreOp where
  | stageRow
  | commit
  | indexWrite
deriving DecidableEq, Repr

/-- Relevant columns of `models/user.py`. -/
structure User where
  id : Nat
  username : String
  bio : Option String
  interests : List String
  profile_photo_url : Option String
  is_active : Bool
  open_to_friends : Bool
  is_verified : Bool
deriving DecidableEq, Repr

/-- A row of `friendships` (models/friendship.py). -/
structure Friendship where
  user1_id : Nat
  user2_id : Nat
deriving DecidableEq, Repr

/-- A row of `friend_requests` (models/friendship.py); `status` is one of
"pending", "accepted", "declined", "cancelled". -/
structure FriendRequest where
  sender_id : Nat
  recipient_id : Nat
  status : String
deriving DecidableEq, Repr

/-- One RSVP dict stored in `Event.rsvps` (models/hangout.py). -/
structure RSVP where
  user_id : Nat
  status : String
  is_friend : Bool
deriving DecidableEq, Repr

/-- Relevant columns of `events` (models/hangout.py).  Columns never read by
the recommendation core are omitted. -/
structure Event where
  id : Nat
  title : String
  description : Option String
  location_name : String
  latitude : ℚ
  longitude : ℚ
  visibility : String
  max_attendees : Option Nat
  is_premium : Bool
  start_time : Int
  end_time : Int
  rsvp_deadline : Option Int
  expires_at : Int
  rsvps : List RSVP
  attendee_count : Nat
  is_active : Bool
deriving DecidableEq, Repr

/-- `Event.get_user_rsvp` (models/hangout.py): `if not self.rsvps or not
user_id: return None`, then first RSVP dict of that user. -/
def Event.get_user_rsvp (e : Event) (user_id : Nat) : Option RSVP :=
  if e.rsvps.isEmpty || user_id == 0 then none
  else e.rsvps.find? (fun r => r.user_id == user_id)

/-- `Event.is_expired` (models/hangout.py): `now > expires_at`. -/
def Event.is_expired (e : Event) (now : Int) : Bool :=
  decide (now > e.expires_at)

/-- `Event.can_rsvp` (models/hangout.py): active and unexpired, before the
end time and any RSVP deadline, and under the attendee cap unless the caller
already has an RSVP.  Python truthiness of `max_attendees` (`None`/`0` falsy)
and of `user_id` is preserved. -/
def Event.can_rsvp (e : Event) (now : Int) (user_id : Nat) : Bool :=
  if !e.is_active || e.is_expired now then false
  else if decide (now > e.end_time) then false
  else if e.rsvp_deadline.elim false (fun d => decide (now > d)) then false
  else if e.max_attendees.elim false
      (fun m => m != 0 && decide (e.attendee_count ≥ m)) then
    user_id != 0 && (e.get_user_rsvp user_id).isSome
  else true

/-- A row of `user_embeddings` (models/embeddings.py); both embedding columns
and `last_updated` are nullable. -/
structure UserEmbedding where
  user_id : Nat
  profile_embedding : Option (List ℚ)
  message_embedding : Option (List ℚ)
  last_updated : Option Int
deriving DecidableEq, Repr

/-- A row of `group_embeddings` (models/embeddings.py). -/
structure GroupEmbedding where
  group_id : Nat
  group_embedding : List ℚ
  last_updated : Option Int
deriving DecidableEq, Repr

/-- A row of `event_embeddings` (models/embeddings.py): embedded once at
creation, the table has no `last_updated` column. -/
structure EventEmbedding where
  event_id : Nat
  event_embedding : List ℚ
deriving DecidableEq, Repr

/-- The relational store visible to the recommendation core. -/
structure DB where
  users : List User
  friendships : List Friendship
  friend_requests : List FriendRequest
  events : List Event
  user_embeddings : List UserEmbedding
deriving DecidableEq, Repr

/-- One formatted row of `ChromaClient.query_similar_users`. -/
structure UserQueryResult where
  user_id : Nat
  distance : ℚ
deriving DecidableEq, Repr

/-- One formatted row of `ChromaClient.query_similar_events`. -/
structure EventQueryResult where
  event_id : Nat
  distance : ℚ
deriving DecidableEq, Repr

/-- A friend-recommendation dict built by `recommend_friends`. -/
structure FriendRecommendation where
  user_id : Nat
  username : String
  bio : Option String
  interests : List String
  profile_photo_url : Option String
  is_verified : Bool
  similarity_score : ℚ
  mutual_friends_count : Nat
  reason : String
deriving DecidableEq, Repr

/-- An event-recommendation dict built by `recommend_events_to_user`. -/
structure EventRecommendation where
  event_id : Nat
  title : String
  description : Option String
  location_name : String
  start_time : Int
  end_time : Int
  attendee_count : Nat
  distance_miles : Option ℚ
  similarity_score : ℚ
  can_rsvp : Bool
  reason : String
deriving DecidableEq, Repr

/-- An event-recommendation dict built by `recommend_events_to_group`. -/
structure GroupEventRecommendation where
  event_id : Nat
  title : String
  description : Option String
  location_name : String
  start_time : Int
  distance_miles : Option ℚ
  similarity_score : ℚ
  reason : String
deriving DecidableEq, Repr

/-- Observable outcome of one recommender call: the returned list, the log
entries emitted, and the `n_results` argument of each vector-index query
issued (in order). -/
structure RecOutcome (α : Type) where
  result : List α
  logs : List LogEntry
  queryCalls : List Nat
deriving DecidableEq, Repr

/-! ### Log messages emitted by the translated code -/

def logFriendsFail (c : String) : LogEntry :=
  ⟨"ERROR", "Failed to generate friend recommendations", some c⟩

def logEventsFail (c : String) : LogEntry :=
  ⟨"ERROR", "Failed to generate event recommendations", some c⟩

def logGroupFail (c : String) : LogEntry :=
  ⟨"ERROR", "Failed to generate event recommendations for group", some c⟩

def logProfileEmbFail (c : String) : LogEntry :=
  ⟨"ERROR", "Failed to get profile embedding", some c⟩

def logQueryUsersFail (c : String) : LogEntry :=
  ⟨"ERROR", "Failed to query similar users", some c⟩

def logQueryEventsFail (c : String) : LogEntry :=
  ⟨"ERROR", "Failed to query similar events", some c⟩

def logGroupEmbFail (c : String) : LogEntry :=
  ⟨"ERROR", "Failed to get group embedding", some c⟩

def logUserTaskFail (c : String) : LogEntry :=
  ⟨"ERROR", "Failed to update embeddings for user", some c⟩

def logNoUserEmb : LogEntry := ⟨"WARNING", "No embedding found for user", none⟩

def logNoGroupEmb : LogEntry := ⟨"WARNING", "No embedding found for group", none⟩

def logNoPublicEvents : LogEntry := ⟨"INFO", "No public events available", none⟩

def logFriendsDone : LogEntry := ⟨"INFO", "Generated friend recommendations", none⟩

def logEventsDone : LogEntry := ⟨"INFO", "Generated event recommendations", none⟩

def logGroupDone : LogEntry :=
  ⟨"INFO", "Generated event recommendations for group", none⟩

/-! ### ChromaClient wrappers (ai/chroma_client.py)

`query_similar_users` / `query_similar_events` / `get_group_embedding` each
wrap the chromadb backend call in `try/except`, returning `[]` (resp. `None`)
and logging the cause on any exception.  The backend call together with the
result-formatting loop is the `Except`-valued oracle argument. -/

def query_similar_users (r : Except String (List UserQueryResult)) :
    List UserQueryResult × List LogEntry :=
  match r with
  | Except.ok l => (l, [])
  | Except.error c => ([], [logQueryUsersFail c])

def query_similar_events (r : Except String (List EventQueryResult)) :
    List EventQueryResult × List LogEntry :=
  match r with
  | Except.ok l => (l, [])
  | Except.error c => ([], [logQueryEventsFail c])

def get_group_embedding (r : Except String (Option (List ℚ))) :
    Option (List ℚ) × List LogEntry :=
  match r with
  | Except.ok v => (v, [])
  | Except.error c => (none, [logGroupEmbFail c])

/-! ### RAGRecommendationEngine helpers (ai/rag_engine.py) -/

/-- Friend counterparts of `uid` in the friendship table; the loop body of
both `_get_excluded_user_ids` and `_get_mutual_friends_count`. -/
def friendIdsOf (uid : Nat) (db : DB) : List Nat :=
  (db.friendships.filter (fun f => f.user1_id == uid || f.user2_id == uid)).map
    (fun f => if f.user1_id == uid then f.user2_id else f.user1_id)

/-- Counterparts of `uid` in the friend-request table (any status), the
second loop of `_get_excluded_user_ids`. -/
def requestIdsOf (uid : Nat) (db : DB) : List Nat :=
  (db.friend_requests.filter
      (fun r => r.sender_id == uid || r.recipient_id == uid)).map
    (fun r => if r.sender_id == uid then r.recipient_id else r.sender_id)

/-- `RAGRecommendationEngine._get_excluded_user_ids`: friends plus friend
request counterparts, de-duplicated (`list(set(...))`; only membership of the
result is relied upon downstream). -/
def get_excluded_user_ids (uid : Nat) (db : DB) : List Nat :=
  (friendIdsOf uid db ++ requestIdsOf uid db).dedup

/-- `RAGRecommendationEngine._get_mutual_friends_count`: size of the
intersection of the two friend-id sets. -/
def get_mutual_friends_count (user1_id user2_id : Nat) (db : DB) : Nat :=
  ((friendIdsOf user1_id db).dedup.filter
    (fun x => (friendIdsOf user2_id db).contains x)).length

/-- `RAGRecommendationEngine._get_declined_event_ids`: ids of active events
where the RSVP dict of the user has status "no". -/
def get_declined_event_ids (uid : Nat) (db : DB) : List Nat :=
  ((db.events.filter (fun e => e.is_active)).filter (fun e =>
      match e.get_user_rsvp uid with
      | some r => r.status == "no"
      | none => false)).map (fun e => e.id)

/-- `_generate_friend_reason`: names one or two common interests, else a
generic sentence.  The Python set-iteration order is modelled by the first
interest order of the current user, de-duplicated. -/
def generate_friend_reason (current_user potential_friend : User) : String :=
  let common :=
    (current_user.interests.filter
      (fun i => potential_friend.interests.contains i)).dedup
  match common with
  | [] => ("You might have a lot in common")
  | [i] => ("You both love " ++ i)
  | i :: j :: _ => ("You share interests in " ++ i ++ ", " ++ j)

/-- `_generate_event_reason`: popularity over 5 attendees, else premium, else
a generic sentence. -/
def generate_event_reason (e : Event) : String :=
  if e.attendee_count > 5 then
    "Popular event with " ++ toString e.attendee_count ++ " people attending"
  else if e.is_premium then ("Featured premium event")
  else ("Great opportunity to meet new people")

/-- `round(x, 2)` on the exact-rational model of floats. -/
def round2 (q : ℚ) : ℚ := ((round (q * 100) : ℤ) : ℚ) / 100

/-- Lines 131-136 and 146 of rag_engine.py (and their twins at 197-202/210):
`distance_miles` starts as `None`, is computed only when both coordinates are
truthy (`if user_lat and user_lng:`), and is rounded only when itself truthy
(`round(distance_miles, 2) if distance_miles else None`).  `calcDist` is
`_calculate_distance` (IEEE-754 haversine), kept opaque. -/
def distance_miles_field (calcDist : ℚ → ℚ → ℚ → ℚ → ℚ)
    (user_lat user_lng event_lat event_lng : ℚ) : Option ℚ :=
  let distance_miles : Option ℚ :=
    if user_lat ≠ 0 ∧ user_lng ≠ 0 then
      some (calcDist user_lat user_lng event_lat event_lng)
    else none
  match distance_miles with
  | some d => if d ≠ 0 then some (round2 d) else none
  | none => none

/-- The `user_embeddings` lookup of `_get_user_profile_embedding`:
`db.query(UserEmbedding).filter(user_id == uid).first()` — the first matching
row in table order, with no ordering clause. -/
def getUserEmbeddingRow (rows : List UserEmbedding) (uid : Nat) :
    Option UserEmbedding :=
  (rows.filter (fun r => r.user_id == uid)).head?

/-- The generate-and-store tail of `_get_user_profile_embedding`: look the
user up, call the embedding service (`gen`), and on a truthy embedding stage
the row, commit, then mirror to chromadb.  A `gen` exception is caught by the
enclosing `except` clause of the function: logged, `None` returned. -/
def generateAndStoreUserEmbedding (db : DB) (uid : Nat)
    (gen : Except String (Option (List ℚ))) :
    Option (List ℚ) × List StoreOp × List LogEntry :=
  match db.users.find? (fun u => u.id == uid) with
  | none => (none, [], [])
  | some _ =>
    match gen with
    | Except.error c => (none, [], [logProfileEmbFail c])
    | Except.ok none => (none, [], [])
    | Except.ok (some profile_emb) =>
      if profile_emb.isEmpty then (none, [], [])
      else (some profile_emb,
            [StoreOp.stageRow, StoreOp.commit, StoreOp.indexWrite], [])

/-- `RAGRecommendationEngine._get_user_profile_embedding`: return the stored
profile embedding when the row has a truthy one, else generate, persist
(commit first, chromadb second) and return it. -/
def get_user_profile_embedding (db : DB) (uid : Nat)
    (gen : Except String (Option (List ℚ))) :
    Option (List ℚ) × List StoreOp × List LogEntry :=
  match getUserEmbeddingRow db.user_embeddings uid with
  | some row =>
    match row.profile_embedding with
    | some p =>
      if !p.isEmpty then (some p, [], [])
      else generateAndStoreUserEmbedding db uid gen
    | none => generateAndStoreUserEmbedding db uid gen
  | none => generateAndStoreUserEmbedding db uid gen

/-- The `all_events` query shared by both event recommenders: active public
events. -/
def publicEvents (db : DB) : List Event :=
  db.events.filter (fun e => e.is_active && e.visibility == "public")

/-- `valid_events` of `recommend_events_to_user`: public events that the user
has not declined and that are not expired. -/
def validEventsForUser (db : DB) (user_id : Nat) (now : Int) : List Event :=
  let declined_event_ids := get_declined_event_ids user_id db
  (publicEvents db).filter
    (fun e => !(declined_event_ids.contains e.id) && !(e.is_expired now))

/-! ### The three recommenders (ai/rag_engine.py) -/

/-- The loop body of `recommend_friends` lines 58-79: re-validate the
candidate against the live user table (active and open to friends), skip it
when it is in the exclusion set, else build the recommendation dict. -/
def mk_friend_recommendation (db : DB) (current_user : User) (user_id : Nat)
    (exclude_user_ids : List Nat) (result : UserQueryResult) :
    Option FriendRecommendation :=
  match db.users.find?
      (fun u => u.id == result.user_id && u.is_active && u.open_to_friends) with
  | some user_detail =>
    if !(exclude_user_ids.contains user_detail.id) then
      some { user_id := user_detail.id
             username := user_detail.username
             bio := user_detail.bio
             interests := user_detail.interests
             profile_photo_url := user_detail.profile_photo_url
             is_verified := user_detail.is_verified
             similarity_score := 1 - result.distance
             mutual_friends_count :=
               get_mutual_friends_count user_id user_detail.id db
             reason := generate_friend_reason current_user user_detail }
    else none
  | none => none

/-- The formatting stage of `recommend_friends`: `for result in
similar_users[:limit]`, keeping the index order and dropping invalid
candidates. -/
def format_friend_candidates (db : DB) (current_user : User) (user_id : Nat)
    (exclude_user_ids : List Nat) (limit : Nat)
    (similar_users : List UserQueryResult) : List FriendRecommendation :=
  (similar_users.take limit).filterMap
    (mk_friend_recommendation db current_user user_id exclude_user_ids)

/-- `RAGRecommendationEngine.recommend_friends`.  `dbr` is the SQLAlchemy
session (an exception anywhere in the session is caught by the outer
`except`), `gen` the embedding service call, `index` the chromadb
`query_similar_users` backend (arguments: query embedding, `n_results`,
`exclude_user_ids`). -/
def recommend_friends (dbr : Except String DB) (user_id limit : Nat)
    (gen : Except String (Option (List ℚ)))
    (index : List ℚ → Nat → List Nat → Except String (List UserQueryResult)) :
    RecOutcome FriendRecommendation :=
  match dbr with
  | Except.error c => ⟨[], [logFriendsFail c], []⟩
  | Except.ok db =>
    match db.users.find? (fun u => u.id == user_id) with
    | none => ⟨[], [], []⟩
    | some current_user =>
      if !current_user.open_to_friends then ⟨[], [], []⟩
      else
        match get_user_profile_embedding db user_id gen with
        | (embOpt, _ops, elogs) =>
          match embOpt with
          | none => ⟨[], elogs ++ [logNoUserEmb], []⟩
          | some user_embedding =>
            if user_embedding.isEmpty then ⟨[], elogs ++ [logNoUserEmb], []⟩
            else
              let exclude_user_ids :=
                get_excluded_user_ids user_id db ++ [user_id]
              match query_similar_users
                  (index user_embedding (limit * 3) exclude_user_ids) with
              | (similar_users, qlogs) =>
                ⟨format_friend_candidates db current_user user_id
                    exclude_user_ids limit similar_users,
                 elogs ++ qlogs ++ [logFriendsDone], [limit * 3]⟩

/-- The loop body of `recommend_events_to_user` lines 128-150: find the
candidate among the valid events, re-check active/unexpired, and build the
recommendation dict (distance and `can_rsvp` are display fields). -/
def mk_event_recommendation (valid_events : List Event) (user_id : Nat)
    (user_lat user_lng : ℚ) (now : Int) (calcDist : ℚ → ℚ → ℚ → ℚ → ℚ)
    (result : EventQueryResult) : Option EventRecommendation :=
  match valid_events.find? (fun e => e.id == result.event_id) with
  | some event =>
    if event.is_active && !(event.is_expired now) then
      some { event_id := event.id
             title := event.title
             description := event.description
             location_name := event.location_name
             start_time := event.start_time
             end_time := event.end_time
             attendee_count := event.attendee_count
             distance_miles :=
               distance_miles_field calcDist user_lat user_lng
                 event.latitude event.longitude
             similarity_score := 1 - result.distance
             can_rsvp := event.can_rsvp now user_id
             reason := generate_event_reason event }
    else none
  | none => none

/-- The formatting stage of `recommend_events_to_user` (no `[:limit]` slice:
the loop runs over everything the index returned). -/
def format_event_candidates (valid_events : List Event) (user_id : Nat)
    (user_lat user_lng : ℚ) (now : Int) (calcDist : ℚ → ℚ → ℚ → ℚ → ℚ)
    (similar_events : List EventQueryResult) : List EventRecommendation :=
  similar_events.filterMap
    (mk_event_recommendation valid_events user_id user_lat user_lng now calcDist)

/-- `RAGRecommendationEngine.recommend_events_to_user`.  `index` is the
chromadb `query_similar_events` backend (query embedding, `n_results`,
`event_ids` filter). -/
def recommend_events_to_user (dbr : Except String DB) (user_id : Nat)
    (user_lat user_lng : ℚ) (limit : Nat) (now : Int)
    (gen : Except String (Option (List ℚ)))
    (index : List ℚ → Nat → List Nat → Except String (List EventQueryResult))
    (calcDist : ℚ → ℚ → ℚ → ℚ → ℚ) : RecOutcome EventRecommendation :=
  match dbr with
  | Except.error c => ⟨[], [logEventsFail c], []⟩
  | Except.ok db =>
    match get_user_profile_embedding db user_id gen with
    | (embOpt, _ops, elogs) =>
      match embOpt with
      | none => ⟨[], elogs, []⟩
      | some user_embedding =>
        if user_embedding.isEmpty then ⟨[], elogs, []⟩
        else
          let all_events := publicEvents db
          if all_events.isEmpty then ⟨[], elogs ++ [logNoPublicEvents], []⟩
          else
            let valid_events := validEventsForUser db user_id now
            if valid_events.isEmpty then ⟨[], elogs, []⟩
            else
              let event_ids := valid_events.map (fun e => e.id)
              match query_similar_events
                  (index user_embedding limit event_ids) with
              | (similar_events, qlogs) =>
                ⟨format_event_candidates valid_events user_id user_lat
                    user_lng now calcDist similar_events,
                 elogs ++ qlogs ++ [logEventsDone], [limit]⟩

/-- The loop body of `recommend_events_to_group` lines 194-213: find the
candidate among `all_events` (no re-check beyond existence) and build the
dict. -/
def mk_group_event_recommendation (all_events : List Event)
    (admin_lat admin_lng : ℚ) (calcDist : ℚ → ℚ → ℚ → ℚ → ℚ)
    (result : EventQueryResult) : Option GroupEventRecommendation :=
  match all_events.find? (fun e => e.id == result.event_id) with
  | some event =>
    some { event_id := event.id
           title := event.title
           description := event.description
           location_name := event.location_name
           start_time := event.start_time
           distance_miles :=
             distance_miles_field calcDist admin_lat admin_lng
               event.latitude event.longitude
           similarity_score := 1 - result.distance
           reason := "This event aligns with your group interests and activities" }
  | none => none

/-- The formatting stage of `recommend_events_to_group`. -/
def format_group_event_candidates (all_events : List Event)
    (admin_lat admin_lng : ℚ) (calcDist : ℚ → ℚ → ℚ → ℚ → ℚ)
    (similar_events : List EventQueryResult) : List GroupEventRecommendation :=
  similar_events.filterMap
    (mk_group_event_recommendation all_events admin_lat admin_lng calcDist)

/-- `RAGRecommendationEngine.recommend_events_to_group`.  `groupEmb` is the
chromadb `get_group_embedding` backend call. -/
def recommend_events_to_group (dbr : Except String DB) (group_id : Nat)
    (admin_lat admin_lng : ℚ) (limit : Nat) (now : Int)
    (groupEmb : Except String (Option (List ℚ)))
    (index : List ℚ → Nat → List Nat → Except String (List EventQueryResult))
    (calcDist : ℚ → ℚ → ℚ → ℚ → ℚ) : RecOutcome GroupEventRecommendation :=
  match dbr with
  | Except.error c => ⟨[], [logGroupFail c], []⟩
  | Except.ok db =>
    match get_group_embedding groupEmb with
    | (gOpt, glogs) =>
      match gOpt with
      | none => ⟨[], glogs ++ [logNoGroupEmb], []⟩
      | some group_embedding =>
        if group_embedding.isEmpty then ⟨[], glogs ++ [logNoGroupEmb], []⟩
        else
          let all_events := publicEvents db
          if all_events.isEmpty then ⟨[], glogs, []⟩
          else
            let event_ids :=
              (all_events.filter
                (fun e => e.is_active && !(e.is_expired now))).map
                (fun e => e.id)
            if event_ids.isEmpty then ⟨[], glogs, []⟩
            else
              match query_similar_events
                  (index group_embedding limit event_ids) with
              | (similar_events, qlogs) =>
                ⟨format_group_event_candidates all_events admin_lat admin_lng
                    calcDist similar_events,
                 glogs ++ qlogs ++ [logGroupDone], [limit]⟩

/-! ### Freshness policy and background tasks (ai/embedding_tasks.py) -/

/-- The freshness decision shared by `update_user_embeddings` and
`update_group_embeddings` (`needs_update = True; if existing and
existing.last_updated: needs_update = time_since_update > timedelta(...)`).
Stale iff the timestamp is absent or strictly older than the TTL. -/
def is_stale (lastUpdated : Option Int) (now ttl : Int) : Bool :=
  match lastUpdated with
  | none => true
  | some lu => decide (now - lu > ttl)

/-- The TTL used for user and group embeddings: 24 hours, in seconds. -/
def ttl24h : Int := 24 * 60 * 60

/-- Per-user staleness test of `update_user_embeddings`: the row may be
absent, and its `last_updated` column is nullable. -/
def userEmbeddingNeedsUpdate (existing : Option UserEmbedding) (now : Int) :
    Bool :=
  is_stale (existing.bind (fun e => e.last_updated)) now ttl24h

/-- Per-group staleness test of `update_group_embeddings` (same shape). -/
def groupEmbeddingNeedsUpdate (existing : Option GroupEmbedding) (now : Int) :
    Bool :=
  is_stale (existing.bind (fun e => e.last_updated)) now ttl24h

/-- The per-user body of `update_user_embeddings` lines 28-62: skip fresh
rows; on truthy profile and message embeddings stage the row, mirror to
chromadb, then commit.  A generation exception is caught per user (logged,
rolled back, loop continues). -/
def updateUserEmbeddingStep (existing : Option UserEmbedding) (now : Int)
    (genProfile genMessage : Except String (Option (List ℚ))) :
    List StoreOp × List LogEntry :=
  if !(userEmbeddingNeedsUpdate existing now) then ([], [])
  else
    match genProfile with
    | Except.error c => ([], [logUserTaskFail c])
    | Except.ok profile_emb =>
      match genMessage with
      | Except.error c => ([], [logUserTaskFail c])
      | Except.ok message_emb =>
        match profile_emb, message_emb with
        | some p, some m =>
          if !p.isEmpty && !m.isEmpty then
            ([StoreOp.stageRow, StoreOp.indexWrite, StoreOp.commit], [])
          else ([], [])
        | _, _ => ([], [])

/-- The selection query of `create_event_embeddings` lines 146-151: active
events with no `event_embeddings` row.  Events already embedded are never
selected again (the table has no freshness column). -/
def eventsNeedingEmbedding (events : List Event) (rows : List EventEmbedding) :
    List Event :=
  events.filter
    (fun e => e.is_active && !(rows.any (fun row => row.event_id == e.id)))

/-- Holds of an upsert trace in which every index write is preceded by a
committed durable write. -/
def indexAfterCommitAux : Bool → List StoreOp → Bool
  | _, [] => true
  | seenCommit, op :: rest =>
    match op with
    | StoreOp.commit => indexAfterCommitAux true rest
    | StoreOp.indexWrite => seenCommit && indexAfterCommitAux seenCommit rest
    | StoreOp.stageRow => indexAfterCommitAux seenCommit rest

def indexAfterCommit (l : List StoreOp) : Bool :=
  indexAfterCommitAux false l

/-! ### Concrete fixtures used to evaluate the model on closed inputs -/

def userA : User :=
  ⟨1, "alice", none, ["Gaming", "Hiking"], none, true, true, false⟩

def userB : User := ⟨2, "bob", none, ["BBQ"], none, true, true, false⟩

def userC : User := ⟨3, "carl", none, [], none, true, true, false⟩

/-- A stored profile embedding for user 1. -/
def rowA : UserEmbedding := ⟨1, some [1], none, some 0⟩

/-- Duplicate-key fixtures: two rows for user 1, the second more recent. -/
def rowOld : UserEmbedding := ⟨1, some [1], none, some 0⟩

def rowNew : UserEmbedding := ⟨1, some [2], none, some 100⟩

/-- An active public event with no RSVP deadline and no attendee cap
(times: starts 2000, ends 3000, expires 3600). -/
def eventOpen : Event :=
  ⟨1, "Pickup Soccer", none, "Park", 42, -83, "public", none, false,
   2000, 3000, none, 3600, [], 0, true⟩

/-- Like `eventOpen` but with an RSVP deadline of 500, already past at time
1000 while the event itself is not expired. -/
def eventDeadline : Event :=
  ⟨1, "Pickup Soccer", none, "Park", 42, -83, "public", none, false,
   2000, 3000, some 500, 3600, [], 0, true⟩

def dbFriends : DB := ⟨[userA, userB, userC], [], [], [], [rowA]⟩

def dbNoEmb : DB := ⟨[userA], [], [], [], []⟩

def dbEvents : DB := ⟨[userA], [], [], [eventOpen], [rowA]⟩

def dbDeadline : DB := ⟨[userA], [], [], [eventDeadline], [rowA]⟩

def dbDup : DB := ⟨[userA], [], [], [], [rowOld, rowNew]⟩

def genNone : Except String (Option (List ℚ)) := Except.ok none

def genBoom : Except String (Option (List ℚ)) := Except.error ("embedder down")

def idxUsersPool (pool : List UserQueryResult) :
    List ℚ → Nat → List Nat → Except String (List UserQueryResult) :=
  fun _ _ _ => Except.ok pool

def idxUsersDown : List ℚ → Nat → List Nat →
    Except String (List UserQueryResult) :=
  fun _ _ _ => Except.error ("index down")

def idxEventsPool (pool : List EventQueryResult) :
    List ℚ → Nat → List Nat → Except String (List EventQueryResult) :=
  fun _ _ _ => Except.ok pool

def idxEventsDown : List ℚ → Nat → List Nat →
    Except String (List EventQueryResult) :=
  fun _ _ _ => Except.error ("index down")

def calcOne : ℚ → ℚ → ℚ → ℚ → ℚ := fun _ _ _ _ => 1

/-- The friend recommendation produced for user 2 from `dbFriends` with raw
distance 1/10. -/
def recB : FriendRecommendation :=
  ⟨2, "bob", none, ["BBQ"], none, false, 1 - 1/10, 0,
   "You might have a lot in common"⟩

/-- The event recommendation produced from `dbDeadline` at time 1000 with raw
distance 1/10 and no requester coordinates. -/
def recDeadline : EventRecommendation :=
  ⟨1, "Pickup Soccer", none, "Park", 2000, 3000, 0, none, 1 - 1/10, false,
   "Great opportunity to meet new people"⟩

/-- The event recommendation produced from `dbEvents` at time 1000 with raw
distance 1/10 and a zero requester latitude. -/
def recOpen0 : EventRecommendation :=
  ⟨1, "Pickup Soccer", none, "Park", 2000, 3000, 0, none, 1 - 1/10, true,
   "Great opportunity to meet new people"⟩

/-- An event-embeddings row for event 1. -/
def evRow1 : EventEmbedding := ⟨1, [1]⟩

/-! ### Helper-internal failure points (rag_engine.py, chroma_client.py)

Each of `_get_excluded_user_ids` (lines 267-300), `_get_mutual_friends_count`
(302-336) and `_get_declined_event_ids` (338-353) wraps its own DB queries in
`try/except`: on any exception it logs the cause and returns a degraded value
([], 0, []) and the calling recommender continues.  Likewise
`ChromaClient.add_user_embedding` (chroma_client.py:56-83) catches internally
and returns `False`, which the caller at rag_engine.py:257 ignores.  The
`_full` variants below expose these failure points as `Except String Unit`
oracles (`Except.error c` = the internal queries raise with message `c`); at
`Except.ok ()` they project back onto the plain definitions above. -/

def logExcludedIdsFail (c : String) : LogEntry :=
  ⟨"ERROR", "Failed to get excluded user IDs", some c⟩

def logMutualCountFail (c : String) : LogEntry :=
  ⟨"ERROR", "Failed to get mutual friends count", some c⟩

def logDeclinedIdsFail (c : String) : LogEntry :=
  ⟨"ERROR", "Failed to get declined event IDs", some c⟩

def logAddUserEmbFail (c : String) : LogEntry :=
  ⟨"ERROR", "Failed to add user embedding", some c⟩

/-- `_get_excluded_user_ids` with its internal `try/except` observable: on an
exception the cause is logged and `[]` is returned. -/
def get_excluded_user_ids_caught (user_id : Nat) (db : DB)
    (exc : Except String Unit) : List Nat × List LogEntry :=
  match exc with
  | Except.ok _ => (get_excluded_user_ids user_id db, [])
  | Except.error c => ([], [logExcludedIdsFail c])

/-- `_get_mutual_friends_count` with its internal `try/except` observable: on
an exception the cause is logged and `0` is returned. -/
def get_mutual_friends_count_caught (user1_id user2_id : Nat) (db : DB)
    (exc : Except String Unit) : Nat × List LogEntry :=
  match exc with
  | Except.ok _ => (get_mutual_friends_count user1_id user2_id db, [])
  | Except.error c => (0, [logMutualCountFail c])

/-- `_get_declined_event_ids` with its internal `try/except` observable: on
an exception the cause is logged and `[]` is returned. -/
def get_declined_event_ids_caught (user_id : Nat) (db : DB)
    (exc : Except String Unit) : List Nat × List LogEntry :=
  match exc with
  | Except.ok _ => (get_declined_event_ids user_id db, [])
  | Except.error c => ([], [logDeclinedIdsFail c])

/-- `ChromaClient.add_user_embedding`: catches any backend exception, logs it
and returns `False`; the result is ignored by its caller. -/
def add_user_embedding_caught (exc : Except String Unit) :
    Bool × List LogEntry :=
  match exc with
  | Except.ok _ => (true, [])
  | Except.error c => (false, [logAddUserEmbFail c])

/-- `generateAndStoreUserEmbedding` with the chromadb mirror write
observable: a mirror failure is swallowed (logged inside the chroma client,
`False` ignored) and the freshly generated embedding is still returned. -/
def generateAndStoreUserEmbedding_full (db : DB) (uid : Nat)
    (gen : Except String (Option (List ℚ))) (addExc : Except String Unit) :
    Option (List ℚ) × List StoreOp × List LogEntry :=
  match db.users.find? (fun u => u.id == uid) with
  | none => (none, [], [])
  | some _ =>
    match gen with
    | Except.error c => (none, [], [logProfileEmbFail c])
    | Except.ok none => (none, [], [])
    | Except.ok (some profile_emb) =>
      if profile_emb.isEmpty then (none, [], [])
      else
        (some profile_emb,
         [StoreOp.stageRow, StoreOp.commit, StoreOp.indexWrite],
         (add_user_embedding_caught addExc).2)

/-- `_get_user_profile_embedding` with the mirror-write failure point. -/
def get_user_profile_embedding_full (db : DB) (uid : Nat)
    (gen : Except String (Option (List ℚ))) (addExc : Except String Unit) :
    Option (List ℚ) × List StoreOp × List LogEntry :=
  match getUserEmbeddingRow db.user_embeddings uid with
  | some row =>
    match row.profile_embedding with
    | some p =>
      if !p.isEmpty then (some p, [], [])
      else generateAndStoreUserEmbedding_full db uid gen addExc
    | none => generateAndStoreUserEmbedding_full db uid gen addExc
  | none => generateAndStoreUserEmbedding_full db uid gen addExc

/-- The `recommend_friends` loop body with the mutual-friend count failure
point: the count call sits inside the loop, its failure is logged there and
degraded to 0, and the recommendation is still appended. -/
def mk_friend_recommendation_full (db : DB) (current_user : User)
    (user_id : Nat) (exclude_user_ids : List Nat)
    (mutualExc : Except String Unit) (result : UserQueryResult) :
    Option FriendRecommendation × List LogEntry :=
  match db.users.find?
      (fun u => u.id == result.user_id && u.is_active && u.open_to_friends) with
  | some user_detail =>
    if !(exclude_user_ids.contains user_detail.id) then
      (some { user_id := user_detail.id
              username := user_detail.username
              bio := user_detail.bio
              interests := user_detail.interests
              profile_photo_url := user_detail.profile_photo_url
              is_verified := user_detail.is_verified
              similarity_score := 1 - result.distance
              mutual_friends_count :=
                (get_mutual_friends_count_caught user_id user_detail.id db
                  mutualExc).1
              reason := generate_friend_reason current_user user_detail },
       (get_mutual_friends_count_caught user_id user_detail.id db mutualExc).2)
    else (none, [])
  | none => (none, [])

/-- The formatting stage of `recommend_friends` with the loop-level logs. -/
def format_friend_candidates_full (db : DB) (current_user : User)
    (user_id : Nat) (exclude_user_ids : List Nat)
    (mutualExc : Except String Unit) (limit : Nat)
    (similar_users : List UserQueryResult) :
    List FriendRecommendation × List LogEntry :=
  ((similar_users.take limit).filterMap
     (fun q => (mk_friend_recommendation_full db current_user user_id
        exclude_user_ids mutualExc q).1),
   (similar_users.take limit).flatMap
     (fun q => (mk_friend_recommendation_full db current_user user_id
        exclude_user_ids mutualExc q).2))

/-- `recommend_friends` with every internal failure point observable: the
session at entry, the embedder, the mirror write, the exclusion-set query,
the per-candidate mutual-friend count, and the index query. -/
def recommend_friends_full (dbr : Except String DB) (user_id limit : Nat)
    (gen : Except String (Option (List ℚ)))
    (addExc exclExc mutualExc : Except String Unit)
    (index : List ℚ → Nat → List Nat → Except String (List UserQueryResult)) :
    RecOutcome FriendRecommendation :=
  match dbr with
  | Except.error c => ⟨[], [logFriendsFail c], []⟩
  | Except.ok db =>
    match db.users.find? (fun u => u.id == user_id) with
    | none => ⟨[], [], []⟩
    | some current_user =>
      if !current_user.open_to_friends then ⟨[], [], []⟩
      else
        match get_user_profile_embedding_full db user_id gen addExc with
        | (embOpt, _ops, elogs) =>
          match embOpt with
          | none => ⟨[], elogs ++ [logNoUserEmb], []⟩
          | some user_embedding =>
            if user_embedding.isEmpty then ⟨[], elogs ++ [logNoUserEmb], []⟩
            else
              let excluded := get_excluded_user_ids_caught user_id db exclExc
              let exclude_user_ids := excluded.1 ++ [user_id]
              let queried := query_similar_users
                (index user_embedding (limit * 3) exclude_user_ids)
              let formatted := format_friend_candidates_full db current_user
                user_id exclude_user_ids mutualExc limit queried.1
              ⟨formatted.1,
               elogs ++ excluded.2 ++ queried.2 ++ formatted.2 ++
                 [logFriendsDone],
               [limit * 3]⟩

/-- `valid_events` of `recommend_events_to_user` as a function of the
declined-id list actually obtained (which is `[]` when the declined query
failed). -/
def validEventsGiven (db : DB) (declined_event_ids : List Nat) (now : Int) :
    List Event :=
  (publicEvents db).filter
    (fun e => !(declined_event_ids.contains e.id) && !(e.is_expired now))

/-- `recommend_events_to_user` with the mirror-write and declined-query
failure points observable. -/
def recommend_events_to_user_full (dbr : Except String DB) (user_id : Nat)
    (user_lat user_lng : ℚ) (limit : Nat) (now : Int)
    (gen : Except String (Option (List ℚ)))
    (addExc declinedExc : Except String Unit)
    (index : List ℚ → Nat → List Nat → Except String (List EventQueryResult))
    (calcDist : ℚ → ℚ → ℚ → ℚ → ℚ) : RecOutcome EventRecommendation :=
  match dbr with
  | Except.error c => ⟨[], [logEventsFail c], []⟩
  | Except.ok db =>
    match get_user_profile_embedding_full db user_id gen addExc with
    | (embOpt, _ops, elogs) =>
      match embOpt with
      | none => ⟨[], elogs, []⟩
      | some user_embedding =>
        if user_embedding.isEmpty then ⟨[], elogs, []⟩
        else
          let all_events := publicEvents db
          if all_events.isEmpty then ⟨[], elogs ++ [logNoPublicEvents], []⟩
          else
            let declined := get_declined_event_ids_caught user_id db
              declinedExc
            let valid_events := validEventsGiven db declined.1 now
            if valid_events.isEmpty then ⟨[], elogs ++ declined.2, []⟩
            else
              let event_ids := valid_events.map (fun e => e.id)
              let queried := query_similar_events
                (index user_embedding limit event_ids)
              ⟨format_event_candidates valid_events user_id user_lat user_lng
                 now calcDist queried.1,
               elogs ++ declined.2 ++ queried.2 ++ [logEventsDone], [limit]⟩

/-- State with an existing friendship between users 1 and 2. -/
def dbFriendship : DB := ⟨[userA, userB, userC], [⟨1, 2⟩], [], [], [rowA]⟩

/-- State where users 1 and 2 share the mutual friend 3. -/
def dbMutual : DB := ⟨[userA, userB, userC], [⟨1, 3⟩, ⟨2, 3⟩], [], [], [rowA]⟩

/-- Like `eventOpen` but declined by user 1 (RSVP status "no"). -/
def eventDeclined : Event :=
  ⟨1, "Pickup Soccer", none, "Park", 42, -83, "public", none, false,
   2000, 3000, none, 3600, [⟨1, "no", false⟩], 0, true⟩

def dbDeclined : DB := ⟨[userA], [], [], [eventDeclined], [rowA]⟩

/-! ### Helper lemmas -/

theorem mem_get_excluded_of_friend {uid x : Nat} {db : DB}
    (h : x ∈ friendIdsOf uid db) : x ∈ get_excluded_user_ids uid db := by
  unfold get_excluded_user_ids
  exact List.mem_dedup.mpr (List.mem_append_left _ h)

theorem mem_get_excluded_of_request {uid x : Nat} {db : DB}
    (h : x ∈ requestIdsOf uid db) : x ∈ get_excluded_user_ids uid db := by
  unfold get_excluded_user_ids
  exact List.mem_dedup.mpr (List.mem_append_right _ h)

theorem mk_friend_recommendation_eq_some {db : DB} {cu : User} {uid : Nat}
    {excl : List Nat} {q : UserQueryResult} {r : FriendRecommendation}
    (h : mk_friend_recommendation db cu uid excl q = some r) :
    r.user_id = q.user_id ∧ excl.contains r.user_id = false ∧
      r.similarity_score = 1 - q.distance := by
  unfold mk_friend_recommendation at h
  cases hfind : db.users.find?
      (fun u => u.id == q.user_id && u.is_active && u.open_to_friends) with
  | none => rw [hfind] at h; cases h
  | some ud =>
    rw [hfind] at h
    have hp := List.find?_some hfind
    simp only [Bool.and_eq_true, beq_iff_eq] at hp
    simp at h
    obtain ⟨hnc, heq⟩ := h
    subst heq
    refine ⟨hp.1.1, ?_, rfl⟩
    simpa using hnc

theorem mem_recommend_friends_result {db : DB} {uid limit : Nat}
    {gen : Except String (Option (List ℚ))}
    {index : List ℚ → Nat → List Nat → Except String (List UserQueryResult)}
    {r : FriendRecommendation}
    (h : r ∈ (recommend_friends (Except.ok db) uid limit gen index).result) :
    ∃ (cu : User) (pool : List UserQueryResult) (q : UserQueryResult),
      q ∈ pool ∧
      mk_friend_recommendation db cu uid
        (get_excluded_user_ids uid db ++ [uid]) q = some r := by
  unfold recommend_friends at h
  dsimp only at h
  repeat' split at h
  all_goals dsimp only at h
  all_goals try exact absurd h (List.not_mem_nil r)
  · unfold format_friend_candidates at h
    obtain ⟨q, hq, hmk⟩ := List.mem_filterMap.mp h
    exact ⟨_, _, q, List.mem_of_mem_take hq, hmk⟩

/-- C1: for every friend-recommendation request — over an arbitrary relational
state, candidate pool and oracles — no user in the friend set of the requester, no
user with any friend-request relationship with the requester in either
direction (in particular pending or declined), and not the id of the requester
ever appears in the returned recommendation list. -/
theorem C1_friend_exclusion (db : DB) (uid limit : Nat)
    (gen : Except String (Option (List ℚ)))
    (index : List ℚ → Nat → List Nat → Except String (List UserQueryResult))
    (r : FriendRecommendation)
    (h : r ∈ (recommend_friends (Except.ok db) uid limit gen index).result) :
    r.user_id ∉ friendIdsOf uid db ∧
    (∀ q ∈ db.friend_requests,
      (q.sender_id = uid → q.recipient_id ≠ r.user_id) ∧
      (q.recipient_id = uid → q.sender_id ≠ r.user_id)) ∧
    r.user_id ≠ uid := by
  obtain ⟨cu, pool, q, hq, hmk⟩ := mem_recommend_friends_result h
  obtain ⟨_, hnc, _⟩ := mk_friend_recommendation_eq_some hmk
  have hmem : r.user_id ∉ get_excluded_user_ids uid db ++ [uid] := by
    simpa using hnc
  have hne : r.user_id ≠ uid := by
    intro he
    exact hmem (by simp [he])
  have hnot : r.user_id ∉ get_excluded_user_ids uid db := by
    intro hx
    exact hmem (List.mem_append_left _ hx)
  refine ⟨fun hf => hnot (mem_get_excluded_of_friend hf), ?_, hne⟩
  intro qr hqr
  constructor
  · intro hs he
    apply hnot
    apply mem_get_excluded_of_request
    unfold requestIdsOf
    refine List.mem_map.mpr ⟨qr, List.mem_filter.mpr ⟨hqr, by simp [hs]⟩, ?_⟩
    simp [hs, he]
  · intro hrcp he
    by_cases hs : qr.sender_id = uid
    · exact hne (by rw [← he, hs])
    · apply hnot
      apply mem_get_excluded_of_request
      unfold requestIdsOf
      refine List.mem_map.mpr
        ⟨qr, List.mem_filter.mpr ⟨hqr, by simp [hrcp]⟩, ?_⟩
      simp [hs, he]
      intro h2
      exact absurd h2 hne

/-- Witness for C1 on a concrete state: user 2 is actually recommended to
user 1 and satisfies the exclusion conclusions. -/
theorem C1_friend_exclusion_witness :
    recB.user_id ∉ friendIdsOf 1 dbFriends ∧
    (∀ q ∈ dbFriends.friend_requests,
      (q.sender_id = 1 → q.recipient_id ≠ recB.user_id) ∧
      (q.recipient_id = 1 → q.sender_id ≠ recB.user_id)) ∧
    recB.user_id ≠ 1 :=
  C1_friend_exclusion dbFriends 1 5 genNone (idxUsersPool [⟨2, 1/10⟩]) recB
    (by
      have hres : (recommend_friends (Except.ok dbFriends) 1 5 genNone
          (idxUsersPool [⟨2, 1/10⟩])).result = [recB] := rfl
      rw [hres]
      exact List.mem_singleton_self recB)

/-- C3 counterexample: `recommend_events_to_user` queries the index with
`n_results = limit`, not `limit * 3` (here limit 10 produces a single query
with k = 10). -/
theorem C3_overfetch_counterexample :
    (recommend_events_to_user (Except.ok dbEvents) 1 0 0 10 1000 genNone
        (idxEventsPool [⟨1, 1/10⟩]) calcOne).queryCalls = [10] ∧
    (10 : Nat) ≠ 10 * 3 := by
  constructor
  · rfl
  · decide

/-- C3 (amended): `recommend_friends` over-fetches with `k = limit * 3`; the
two event recommenders query with `k = limit`; every recommender issues at
most one index query per request (so the 2-additional-queries bound holds
vacuously) and returns whatever survives filtering. -/
theorem C3_overfetch_corrected :
    (∀ dbr (uid limit : Nat) gen index,
      (recommend_friends dbr uid limit gen index).queryCalls = [] ∨
      (recommend_friends dbr uid limit gen index).queryCalls = [limit * 3]) ∧
    (∀ dbr (uid : Nat) (ulat ulng : ℚ) (limit : Nat) (now : Int) gen index cd,
      (recommend_events_to_user dbr uid ulat ulng limit now gen
          index cd).queryCalls = [] ∨
      (recommend_events_to_user dbr uid ulat ulng limit now gen
          index cd).queryCalls = [limit]) ∧
    (∀ dbr (gid : Nat) (alat alng : ℚ) (limit : Nat) (now : Int) gEmb index cd,
      (recommend_events_to_group dbr gid alat alng limit now gEmb
          index cd).queryCalls = [] ∨
      (recommend_events_to_group dbr gid alat alng limit now gEmb
          index cd).queryCalls = [limit]) ∧
    (∀ dbr (uid limit : Nat) gen index,
      (recommend_friends dbr uid limit gen index).queryCalls.length ≤ 1) ∧
    (∀ dbr (uid : Nat) (ulat ulng : ℚ) (limit : Nat) (now : Int) gen index cd,
      (recommend_events_to_user dbr uid ulat ulng limit now gen
          index cd).queryCalls.length ≤ 1) ∧
    (∀ dbr (gid : Nat) (alat alng : ℚ) (limit : Nat) (now : Int) gEmb index cd,
      (recommend_events_to_group dbr gid alat alng limit now gEmb
          index cd).queryCalls.length ≤ 1) := by
  have hf : ∀ dbr (uid limit : Nat) gen index,
      (recommend_friends dbr uid limit gen index).queryCalls = [] ∨
      (recommend_friends dbr uid limit gen index).queryCalls = [limit * 3] := by
    intro dbr uid limit gen index
    unfold recommend_friends
    dsimp only
    repeat' split
    all_goals simp
  have he : ∀ dbr (uid : Nat) (ulat ulng : ℚ) (limit : Nat) (now : Int)
      gen index cd,
      (recommend_events_to_user dbr uid ulat ulng limit now gen
          index cd).queryCalls = [] ∨
      (recommend_events_to_user dbr uid ulat ulng limit now gen
          index cd).queryCalls = [limit] := by
    intro dbr uid ulat ulng limit now gen index cd
    unfold recommend_events_to_user
    dsimp only
    repeat' split
    all_goals simp
  have hg : ∀ dbr (gid : Nat) (alat alng : ℚ) (limit : Nat) (now : Int)
      gEmb index cd,
      (recommend_events_to_group dbr gid alat alng limit now gEmb
          index cd).queryCalls = [] ∨
      (recommend_events_to_group dbr gid alat alng limit now gEmb
          index cd).queryCalls = [limit] := by
    intro dbr gid alat alng limit now gEmb index cd
    unfold recommend_events_to_group
    dsimp only
    repeat' split
    all_goals simp
  refine ⟨hf, he, hg, ?_, ?_, ?_⟩
  · intro dbr uid limit gen index
    rcases hf dbr uid limit gen index with h | h <;> simp [h]
  · intro dbr uid ulat ulng limit now gen index cd
    rcases he dbr uid ulat ulng limit now gen index cd with h | h <;> simp [h]
  · intro dbr gid alat alng limit now gEmb index cd
    rcases hg dbr gid alat alng limit now gEmb index cd with h | h <;> simp [h]

theorem mk_event_recommendation_eq_some {valid : List Event} {uid : Nat}
    {ulat ulng : ℚ} {now : Int} {cd : ℚ → ℚ → ℚ → ℚ → ℚ}
    {q : EventQueryResult} {r : EventRecommendation}
    (h : mk_event_recommendation valid uid ulat ulng now cd q = some r) :
    ∃ e, e ∈ valid ∧ r.event_id = e.id ∧ e.id = q.event_id ∧
      e.is_active = true ∧ e.is_expired now = false ∧
      r.similarity_score = 1 - q.distance ∧
      r.can_rsvp = e.can_rsvp now uid ∧
      r.distance_miles =
        distance_miles_field cd ulat ulng e.latitude e.longitude := by
  unfold mk_event_recommendation at h
  cases hfind : valid.find? (fun e => e.id == q.event_id) with
  | none => rw [hfind] at h; cases h
  | some e =>
    rw [hfind] at h
    have hp := List.find?_some hfind
    have hmem := List.mem_of_find?_eq_some hfind
    simp only [beq_iff_eq] at hp
    simp at h
    obtain ⟨⟨hact, hexp⟩, heq⟩ := h
    subst heq
    exact ⟨e, hmem, rfl, hp, hact, by simpa using hexp, rfl, rfl, rfl⟩

theorem mem_recommend_events_to_user_result {db : DB} {uid : Nat}
    {ulat ulng : ℚ} {limit : Nat} {now : Int}
    {gen : Except String (Option (List ℚ))}
    {index : List ℚ → Nat → List Nat → Except String (List EventQueryResult)}
    {cd : ℚ → ℚ → ℚ → ℚ → ℚ} {r : EventRecommendation}
    (h : r ∈ (recommend_events_to_user (Except.ok db) uid ulat ulng limit now
        gen index cd).result) :
    ∃ q : EventQueryResult,
      mk_event_recommendation (validEventsForUser db uid now) uid ulat ulng
        now cd q = some r := by
  unfold recommend_events_to_user at h
  dsimp only at h
  repeat' split at h
  all_goals dsimp only at h
  all_goals try exact absurd h (List.not_mem_nil r)
  · unfold format_event_candidates at h
    obtain ⟨q, _, hmk⟩ := List.mem_filterMap.mp h
    exact ⟨q, hmk⟩

theorem mem_validEventsForUser {db : DB} {uid : Nat} {now : Int} {e : Event}
    (h : e ∈ validEventsForUser db uid now) :
    e ∈ db.events ∧ e.is_active = true ∧ e.visibility = "public" ∧
    e.id ∉ get_declined_event_ids uid db ∧ e.is_expired now = false := by
  unfold validEventsForUser publicEvents at h
  dsimp only at h
  obtain ⟨h2, hcond2⟩ := List.mem_filter.mp h
  obtain ⟨h1, hcond1⟩ := List.mem_filter.mp h2
  simp at hcond1 hcond2
  exact ⟨h1, hcond1.1, hcond1.2, hcond2.1, hcond2.2⟩

theorem mk_group_event_recommendation_eq_some {all : List Event}
    {alat alng : ℚ} {cd : ℚ → ℚ → ℚ → ℚ → ℚ} {q : EventQueryResult}
    {r : GroupEventRecommendation}
    (h : mk_group_event_recommendation all alat alng cd q = some r) :
    ∃ e, e ∈ all ∧ r.event_id = e.id ∧ e.id = q.event_id ∧
      r.similarity_score = 1 - q.distance ∧
      r.distance_miles =
        distance_miles_field cd alat alng e.latitude e.longitude := by
  unfold mk_group_event_recommendation at h
  cases hfind : all.find? (fun e => e.id == q.event_id) with
  | none => rw [hfind] at h; cases h
  | some e =>
    rw [hfind] at h
    have hp := List.find?_some hfind
    have hmem := List.mem_of_find?_eq_some hfind
    simp only [beq_iff_eq] at hp
    simp only [Option.some.injEq] at h
    subst h
    exact ⟨e, hmem, rfl, hp, rfl, rfl⟩

theorem mem_recommend_events_to_group_result {db : DB} {gid : Nat}
    {alat alng : ℚ} {limit : Nat} {now : Int}
    {gEmb : Except String (Option (List ℚ))}
    {index : List ℚ → Nat → List Nat → Except String (List EventQueryResult)}
    {cd : ℚ → ℚ → ℚ → ℚ → ℚ} {r : GroupEventRecommendation}
    (h : r ∈ (recommend_events_to_group (Except.ok db) gid alat alng limit
        now gEmb index cd).result) :
    ∃ q : EventQueryResult,
      mk_group_event_recommendation (publicEvents db) alat alng cd q
        = some r := by
  unfold recommend_events_to_group at h
  dsimp only at h
  repeat' split at h
  all_goals dsimp only at h
  all_goals try exact absurd h (List.not_mem_nil r)
  · unfold format_group_event_candidates at h
    obtain ⟨q, _, hmk⟩ := List.mem_filterMap.mp h
    exact ⟨q, hmk⟩

/-- Order preservation through a filterMap whose score is an antitone image
of the key: a key-ascending input yields a score-descending output. -/
theorem pairwise_filterMap_anti {α β : Type} (f : α → Option β)
    (sc : β → ℚ) (key : α → ℚ)
    (hf : ∀ a b, f a = some b → sc b = 1 - key a) :
    ∀ l : List α, l.Pairwise (fun a b => key a ≤ key b) →
      (l.filterMap f).Pairwise (fun x y => sc y ≤ sc x) := by
  intro l
  induction l with
  | nil => intro _; simp
  | cons a t ih =>
    intro hp
    rw [List.pairwise_cons] at hp
    obtain ⟨ha, ht⟩ := hp
    rw [List.filterMap_cons]
    cases hfa : f a with
    | none => exact ih ht
    | some b =>
      rw [List.pairwise_cons]
      refine ⟨?_, ih ht⟩
      intro y hy
      obtain ⟨x, hx, hxy⟩ := List.mem_filterMap.mp hy
      have h1 := hf a b hfa
      have h2 := hf x y hxy
      have h3 := ha x hx
      rw [h1, h2]
      linarith

/-- C4 counterexample: the recommenders do not sort.  With an unsorted
candidate pool the friend list comes back score-ascending ([1/2, 9/10]), and
with a tied pool whose ids arrive in descending order the ids stay descending
([3, 2]), so neither the similarity-descending ordering nor the id tie-break
holds of the result list as such. -/
theorem C4_ranking_counterexample :
    ((recommend_friends (Except.ok dbFriends) 1 5 genNone
        (idxUsersPool [⟨2, 1/2⟩, ⟨3, 1/10⟩])).result.map
        (fun r => r.similarity_score)) = [1 - 1/2, 1 - 1/10] ∧
    ¬ ((1 : ℚ) - 1/10 ≤ 1 - 1/2) ∧
    ((recommend_friends (Except.ok dbFriends) 1 5 genNone
        (idxUsersPool [⟨3, 1/10⟩, ⟨2, 1/10⟩])).result.map
        (fun r => (r.user_id, r.similarity_score))) =
      [(3, 1 - 1/10), (2, 1 - 1/10)] ∧
    (2 : Nat) < 3 :=
  ⟨rfl, by norm_num, rfl, by norm_num⟩

/-- C4 (amended): similarity scores equal 1 minus the raw index distance; the
formatting stages preserve the candidate order of the index, so the output is
similarity-descending whenever the pool is distance-ascending (no tie-break of
any kind is applied); the friend list is truncated to the requested limit and
the event lists are bounded by the pool length; and every non-empty
recommender result is exactly such a formatting-stage output. -/
theorem C4_ranking_corrected :
    (∀ db cu (uid : Nat) excl (limit : Nat) pool (r : FriendRecommendation),
      r ∈ format_friend_candidates db cu uid excl limit pool →
      ∃ q ∈ pool, q.user_id = r.user_id ∧
        r.similarity_score = 1 - q.distance) ∧
    (∀ db cu (uid : Nat) excl (limit : Nat) pool,
      pool.Pairwise (fun a b => a.distance ≤ b.distance) →
      (format_friend_candidates db cu uid excl limit pool).Pairwise
        (fun x y => y.similarity_score ≤ x.similarity_score)) ∧
    (∀ db cu (uid : Nat) excl (limit : Nat) pool,
      (format_friend_candidates db cu uid excl limit pool).length ≤ limit) ∧
    (∀ valid (uid : Nat) (ulat ulng : ℚ) (now : Int) cd pool
        (r : EventRecommendation),
      r ∈ format_event_candidates valid uid ulat ulng now cd pool →
      ∃ q ∈ pool, q.event_id = r.event_id ∧
        r.similarity_score = 1 - q.distance) ∧
    (∀ valid (uid : Nat) (ulat ulng : ℚ) (now : Int) cd pool,
      pool.Pairwise (fun a b => a.distance ≤ b.distance) →
      (format_event_candidates valid uid ulat ulng now cd pool).Pairwise
        (fun x y => y.similarity_score ≤ x.similarity_score)) ∧
    (∀ valid (uid : Nat) (ulat ulng : ℚ) (now : Int) cd pool,
      (format_event_candidates valid uid ulat ulng now cd pool).length ≤
        pool.length) ∧
    (∀ all (alat alng : ℚ) cd pool (r : GroupEventRecommendation),
      r ∈ format_group_event_candidates all alat alng cd pool →
      ∃ q ∈ pool, q.event_id = r.event_id ∧
        r.similarity_score = 1 - q.distance) ∧
    (∀ all (alat alng : ℚ) cd pool,
      pool.Pairwise (fun a b => a.distance ≤ b.distance) →
      (format_group_event_candidates all alat alng cd pool).Pairwise
        (fun x y => y.similarity_score ≤ x.similarity_score)) ∧
    (∀ all (alat alng : ℚ) cd pool,
      (format_group_event_candidates all alat alng cd pool).length ≤
        pool.length) ∧
    (∀ dbr (uid limit : Nat) gen index,
      (recommend_friends dbr uid limit gen index).result = [] ∨
      ∃ db cu pool, (recommend_friends dbr uid limit gen index).result =
        format_friend_candidates db cu uid
          (get_excluded_user_ids uid db ++ [uid]) limit pool) ∧
    (∀ dbr (uid : Nat) (ulat ulng : ℚ) (limit : Nat) (now : Int) gen index cd,
      (recommend_events_to_user dbr uid ulat ulng limit now gen
          index cd).result = [] ∨
      ∃ db pool, (recommend_events_to_user dbr uid ulat ulng limit now gen
          index cd).result =
        format_event_candidates (validEventsForUser db uid now) uid ulat ulng
          now cd pool) ∧
    (∀ dbr (gid : Nat) (alat alng : ℚ) (limit : Nat) (now : Int) gEmb index cd,
      (recommend_events_to_group dbr gid alat alng limit now gEmb
          index cd).result = [] ∨
      ∃ db pool, (recommend_events_to_group dbr gid alat alng limit now gEmb
          index cd).result =
        format_group_event_candidates (publicEvents db) alat alng cd pool) := by
  refine ⟨?_, ?_, ?_, ?_, ?_, ?_, ?_, ?_, ?_, ?_, ?_, ?_⟩
  · intro db cu uid excl limit pool r h
    unfold format_friend_candidates at h
    obtain ⟨q, hq, hmk⟩ := List.mem_filterMap.mp h
    obtain ⟨hid, _, hsim⟩ := mk_friend_recommendation_eq_some hmk
    exact ⟨q, List.mem_of_mem_take hq, hid.symm, hsim⟩
  · intro db cu uid excl limit pool hp
    unfold format_friend_candidates
    exact pairwise_filterMap_anti _ (fun r => r.similarity_score)
      (fun q => q.distance)
      (fun q r h => (mk_friend_recommendation_eq_some h).2.2)
      _ (hp.sublist (List.take_sublist limit pool))
  · intro db cu uid excl limit pool
    unfold format_friend_candidates
    calc ((pool.take limit).filterMap
            (mk_friend_recommendation db cu uid excl)).length
        ≤ (pool.take limit).length := List.length_filterMap_le _ _
      _ ≤ limit := List.length_take_le limit pool
  · intro valid uid ulat ulng now cd pool r h
    unfold format_event_candidates at h
    obtain ⟨q, hq, hmk⟩ := List.mem_filterMap.mp h
    obtain ⟨e, _, hrid, hqid, _, _, hsim, _, _⟩ :=
      mk_event_recommendation_eq_some hmk
    exact ⟨q, hq, by rw [hrid, hqid], hsim⟩
  · intro valid uid ulat ulng now cd pool hp
    unfold format_event_candidates
    refine pairwise_filterMap_anti _
      (fun r : EventRecommendation => r.similarity_score)
      (fun q : EventQueryResult => q.distance) ?_ _ hp
    intro q r h
    obtain ⟨e, _, _, _, _, _, hsim, _, _⟩ := mk_event_recommendation_eq_some h
    exact hsim
  · intro valid uid ulat ulng now cd pool
    exact List.length_filterMap_le _ _
  · intro all alat alng cd pool r h
    unfold format_group_event_candidates at h
    obtain ⟨q, hq, hmk⟩ := List.mem_filterMap.mp h
    obtain ⟨e, _, hrid, hqid, hsim, _⟩ :=
      mk_group_event_recommendation_eq_some hmk
    exact ⟨q, hq, by rw [hrid, hqid], hsim⟩
  · intro all alat alng cd pool hp
    unfold format_group_event_candidates
    refine pairwise_filterMap_anti _
      (fun r : GroupEventRecommendation => r.similarity_score)
      (fun q : EventQueryResult => q.distance) ?_ _ hp
    intro q r h
    obtain ⟨e, _, _, _, hsim, _⟩ := mk_group_event_recommendation_eq_some h
    exact hsim
  · intro all alat alng cd pool
    exact List.length_filterMap_le _ _
  · intro dbr uid limit gen index
    unfold recommend_friends
    dsimp only
    repeat' split
    all_goals try exact Or.inl rfl
    exact Or.inr ⟨_, _, _, rfl⟩
  · intro dbr uid ulat ulng limit now gen index cd
    unfold recommend_events_to_user
    dsimp only
    repeat' split
    all_goals try exact Or.inl rfl
    exact Or.inr ⟨_, _, rfl⟩
  · intro dbr gid alat alng limit now gEmb index cd
    unfold recommend_events_to_group
    dsimp only
    repeat' split
    all_goals try exact Or.inl rfl
    exact Or.inr ⟨_, _, rfl⟩

/-- Witness for C4 on concrete formatting runs that actually produce
recommendations. -/
theorem C4_ranking_corrected_witness :
    (∃ q ∈ [(⟨2, 1/10⟩ : UserQueryResult)], q.user_id = recB.user_id ∧
      recB.similarity_score = 1 - q.distance) ∧
    (format_friend_candidates dbFriends userA 1
        (get_excluded_user_ids 1 dbFriends ++ [1]) 5 [⟨2, 1/10⟩]).Pairwise
      (fun x y => y.similarity_score ≤ x.similarity_score) ∧
    (∃ q ∈ [(⟨1, 1/10⟩ : EventQueryResult)],
      q.event_id = recDeadline.event_id ∧
      recDeadline.similarity_score = 1 - q.distance) :=
  ⟨C4_ranking_corrected.1 dbFriends userA 1
     (get_excluded_user_ids 1 dbFriends ++ [1]) 5 [⟨2, 1/10⟩] recB
     (by
       have hres : format_friend_candidates dbFriends userA 1
           (get_excluded_user_ids 1 dbFriends ++ [1]) 5 [⟨2, 1/10⟩]
           = [recB] := rfl
       rw [hres]
       exact List.mem_singleton_self recB),
   C4_ranking_corrected.2.1 dbFriends userA 1
     (get_excluded_user_ids 1 dbFriends ++ [1]) 5 [⟨2, 1/10⟩] (by simp),
   C4_ranking_corrected.2.2.2.1 (validEventsForUser dbDeadline 1 1000) 1 0 0
     1000 calcOne [⟨1, 1/10⟩] recDeadline
     (by
       have hres : format_event_candidates (validEventsForUser dbDeadline 1
           1000) 1 0 0 1000 calcOne [⟨1, 1/10⟩] = [recDeadline] := rfl
       rw [hres]
       exact List.mem_singleton_self recDeadline)⟩

/-- C5 counterexample: an active, unexpired, undeclined public event whose
RSVP deadline has passed (so `can_rsvp` is false) is still recommended — the
predicate is attached as a display field, it does not gate inclusion. -/
theorem C5_event_filter_counterexample :
    ((recommend_events_to_user (Except.ok dbDeadline) 1 0 0 10 1000 genNone
        (idxEventsPool [⟨1, 1/10⟩]) calcOne).result.map
        (fun r => (r.event_id, r.can_rsvp))) = [(1, false)] ∧
    eventDeadline.can_rsvp 1000 1 = false ∧
    eventDeadline ∈ dbDeadline.events :=
  ⟨rfl, rfl, List.mem_singleton_self eventDeadline⟩

/-- C5 (amended): every event recommended to a user is an active public
event from the store, not expired and not declined by the user; the
still-can-RSVP predicate is evaluated and attached as the
`can_rsvp` field of the recommendation but does not gate inclusion. -/
theorem C5_event_filter (db : DB) (uid : Nat) (ulat ulng : ℚ) (limit : Nat)
    (now : Int) (gen : Except String (Option (List ℚ)))
    (index : List ℚ → Nat → List Nat → Except String (List EventQueryResult))
    (cd : ℚ → ℚ → ℚ → ℚ → ℚ) (r : EventRecommendation)
    (h : r ∈ (recommend_events_to_user (Except.ok db) uid ulat ulng limit now
        gen index cd).result) :
    ∃ e, e ∈ db.events ∧ r.event_id = e.id ∧ e.is_active = true ∧
      e.visibility = "public" ∧ e.is_expired now = false ∧
      e.id ∉ get_declined_event_ids uid db ∧
      r.can_rsvp = e.can_rsvp now uid := by
  obtain ⟨q, hmk⟩ := mem_recommend_events_to_user_result h
  obtain ⟨e, hmem, hrid, _, _, _, _, hcan, _⟩ :=
    mk_event_recommendation_eq_some hmk
  obtain ⟨hdb, hact, hvis, hdecl, hexp⟩ := mem_validEventsForUser hmem
  exact ⟨e, hdb, hrid, hact, hvis, hexp, hdecl, hcan⟩

/-- Witness for C5 on a concrete state in which an event is recommended. -/
theorem C5_event_filter_witness :
    ∃ e, e ∈ dbDeadline.events ∧ recDeadline.event_id = e.id ∧
      e.is_active = true ∧ e.visibility = "public" ∧
      e.is_expired 1000 = false ∧
      e.id ∉ get_declined_event_ids 1 dbDeadline ∧
      recDeadline.can_rsvp = e.can_rsvp 1000 1 :=
  C5_event_filter dbDeadline 1 0 0 10 1000 genNone
    (idxEventsPool [⟨1, 1/10⟩]) calcOne recDeadline
    (by
      have hres : (recommend_events_to_user (Except.ok dbDeadline) 1 0 0 10
          1000 genNone (idxEventsPool [⟨1, 1/10⟩]) calcOne).result
          = [recDeadline] := rfl
      rw [hres]
      exact List.mem_singleton_self recDeadline)

/-- C6: the freshness decision is stale exactly when the record (or its
timestamp) is absent or strictly older than the TTL; the three boundary
instances hold for any TTL, the TTL used for users and groups is 24 hours,
and an event that already has an embedding row is never selected for
re-embedding. -/
theorem C6_staleness :
    (∀ (lastUpdated : Option Int) (now ttl : Int),
      is_stale lastUpdated now ttl = true ↔
        (lastUpdated = none ∨
          ∃ lu, lastUpdated = some lu ∧ now - lu > ttl)) ∧
    (∀ now ttl : Int, is_stale (some (now - ttl - 1)) now ttl = true) ∧
    (∀ now ttl : Int, is_stale (some (now - ttl + 1)) now ttl = false) ∧
    (∀ now ttl : Int, is_stale none now ttl = true) ∧
    ttl24h = 24 * 60 * 60 ∧
    (∀ existing now, userEmbeddingNeedsUpdate existing now =
      is_stale (existing.bind (fun e => e.last_updated)) now ttl24h) ∧
    (∀ existing now, groupEmbeddingNeedsUpdate existing now =
      is_stale (existing.bind (fun e => e.last_updated)) now ttl24h) ∧
    (∀ events rows (e : Event), e ∈ events →
      (∃ row ∈ rows, row.event_id = e.id) →
      e ∉ eventsNeedingEmbedding events rows) := by
  refine ⟨?_, ?_, ?_, fun _ _ => rfl, rfl, fun _ _ => rfl, fun _ _ => rfl, ?_⟩
  · intro lastUpdated now ttl
    cases lastUpdated with
    | none => simp [is_stale]
    | some v => simp [is_stale]
  · intro now ttl
    simp [is_stale]
    omega
  · intro now ttl
    simp [is_stale]
    omega
  · intro events rows e hmem hrow habs
    obtain ⟨row, hr, hid⟩ := hrow
    have hc := (List.mem_filter.mp habs).2
    simp only [Bool.and_eq_true, Bool.not_eq_true', List.any_eq_false,
      beq_iff_eq] at hc
    exact hc.2 row hr hid

/-- Witness for C6: event 1 already has an embedding row and is not selected
by the creation sweep. -/
theorem C6_staleness_witness :
    eventOpen ∉ eventsNeedingEmbedding [eventOpen] [evRow1] :=
  C6_staleness.2.2.2.2.2.2.2 [eventOpen] [evRow1] eventOpen
    (List.mem_singleton_self eventOpen)
    ⟨evRow1, List.mem_singleton_self evRow1, rfl⟩

/-- C7 counterexample: in the background refresh task the chromadb mirror
write happens before `db.commit()`, so the durable store can be behind the
index — the claimed durable-first ordering fails on this upsert path. -/
theorem C7_write_order_counterexample :
    (updateUserEmbeddingStep none 0 (Except.ok (some [1]))
        (Except.ok (some [1]))).1 =
      [StoreOp.stageRow, StoreOp.indexWrite, StoreOp.commit] ∧
    indexAfterCommit
      [StoreOp.stageRow, StoreOp.indexWrite, StoreOp.commit] = false :=
  ⟨rfl, rfl⟩

/-- C7 (amended): on the lazy read-path upsert
(`_get_user_profile_embedding`) the durable commit always precedes the index
write; on the background refresh path (`update_user_embeddings`) the trace is
always empty or stage-row, index-write, then commit — the index write
precedes the durable commit. -/
theorem C7_write_order_corrected :
    (∀ (db : DB) (uid : Nat) gen,
      indexAfterCommit (get_user_profile_embedding db uid gen).2.1 = true) ∧
    (∀ (db : DB) (uid : Nat) gen,
      (get_user_profile_embedding db uid gen).2.1 = [] ∨
      (get_user_profile_embedding db uid gen).2.1 =
        [StoreOp.stageRow, StoreOp.commit, StoreOp.indexWrite]) ∧
    (∀ existing (now : Int) gp gm,
      (updateUserEmbeddingStep existing now gp gm).1 = [] ∨
      (updateUserEmbeddingStep existing now gp gm).1 =
        [StoreOp.stageRow, StoreOp.indexWrite, StoreOp.commit]) := by
  refine ⟨?_, ?_, ?_⟩
  · intro db uid gen
    unfold get_user_profile_embedding generateAndStoreUserEmbedding
    repeat' split
    all_goals rfl
  · intro db uid gen
    unfold get_user_profile_embedding generateAndStoreUserEmbedding
    repeat' split
    all_goals simp
  · intro existing now gp gm
    unfold updateUserEmbeddingStep
    repeat' split
    all_goals simp

/-- C8 counterexample: with two rows for the same user id, the read returns
the first row in table order (the strictly older one), emits no log, and the
query vector comes from the stale row. -/
theorem C8_duplicate_read_counterexample :
    getUserEmbeddingRow [rowOld, rowNew] 1 = some rowOld ∧
    rowNew ∈ [rowOld, rowNew] ∧ rowNew.user_id = 1 ∧
    rowOld.last_updated = some 0 ∧ rowNew.last_updated = some 100 ∧
    rowOld ≠ rowNew ∧
    (get_user_profile_embedding dbDup 1 genNone).1 = some [1] ∧
    (get_user_profile_embedding dbDup 1 genNone).2.2 = [] := by
  refine ⟨rfl, by simp, rfl, rfl, rfl, ?_, rfl, rfl⟩
  intro h
  have h2 := congrArg UserEmbedding.last_updated h
  simp [rowOld, rowNew] at h2

/-- C8 (amended): the duplicate-key read resolves deterministically to the
first matching row in table order (`filter ... |>.head?` equals `find?`),
regardless of `last_updated`, and never fails when a matching row exists; no
error is logged. -/
theorem C8_duplicate_read_corrected :
    (∀ (rows : List UserEmbedding) (uid : Nat),
      getUserEmbeddingRow rows uid =
        rows.find? (fun r => r.user_id == uid)) ∧
    (∀ (rows : List UserEmbedding) (uid : Nat) (r : UserEmbedding),
      r ∈ rows → r.user_id = uid →
      (getUserEmbeddingRow rows uid).isSome = true) := by
  have hfind : ∀ (rows : List UserEmbedding) (uid : Nat),
      getUserEmbeddingRow rows uid =
        rows.find? (fun r => r.user_id == uid) := by
    intro rows uid
    induction rows with
    | nil => rfl
    | cons a t ih =>
      by_cases hp : (a.user_id == uid) = true
      · simp [getUserEmbeddingRow, List.filter_cons, hp,
          List.find?_cons_of_pos]
      · unfold getUserEmbeddingRow at ih ⊢
        rw [List.filter_cons, if_neg hp]
        simp only [List.find?_cons,
          show (a.user_id == uid) = false from by simpa using hp]
        exact ih
  refine ⟨hfind, ?_⟩
  intro rows uid r hr hid
  rw [hfind]
  have : ∃ x ∈ rows, (fun r : UserEmbedding => r.user_id == uid) x = true :=
    ⟨r, hr, by simp [hid]⟩
  simpa [List.find?_isSome] using this

/-- Witness for C8: the duplicate-row state still yields a row. -/
theorem C8_duplicate_read_corrected_witness :
    (getUserEmbeddingRow [rowOld, rowNew] 1).isSome = true :=
  C8_duplicate_read_corrected.2 [rowOld, rowNew] 1 rowOld (by simp) rfl

theorem distance_miles_field_none_iff (cd : ℚ → ℚ → ℚ → ℚ → ℚ)
    (ulat ulng elat elng : ℚ) :
    distance_miles_field cd ulat ulng elat elng = none ↔
      (ulat = 0 ∨ ulng = 0 ∨ cd ulat ulng elat elng = 0) := by
  unfold distance_miles_field
  dsimp only
  by_cases h1 : ulat = 0
  · simp [h1]
  · by_cases h2 : ulng = 0
    · simp [h1, h2]
    · by_cases h3 : cd ulat ulng elat elng = 0
      · simp [h1, h2, h3]
      · simp [h1, h2, h3]

/-- C10: the reported `distance_miles` is `None` exactly when a supplied
coordinate is the falsy 0.0 or the computed distance is exactly 0, in both
event recommenders — both the coordinate check and the rounding step test
truthiness rather than presence. -/
theorem C10_distance_truthiness :
    (∀ (cd : ℚ → ℚ → ℚ → ℚ → ℚ) (ulat ulng elat elng : ℚ),
      distance_miles_field cd ulat ulng elat elng = none ↔
        (ulat = 0 ∨ ulng = 0 ∨ cd ulat ulng elat elng = 0)) ∧
    (∀ db (uid : Nat) (ulng : ℚ) (limit : Nat) (now : Int) gen index cd
        (r : EventRecommendation),
      r ∈ (recommend_events_to_user (Except.ok db) uid 0 ulng limit now gen
          index cd).result → r.distance_miles = none) ∧
    (∀ db (uid : Nat) (ulat : ℚ) (limit : Nat) (now : Int) gen index cd
        (r : EventRecommendation),
      r ∈ (recommend_events_to_user (Except.ok db) uid ulat 0 limit now gen
          index cd).result → r.distance_miles = none) ∧
    (∀ db (uid : Nat) (ulat ulng : ℚ) (limit : Nat) (now : Int) gen index
        (r : EventRecommendation),
      r ∈ (recommend_events_to_user (Except.ok db) uid ulat ulng limit now
          gen index (fun _ _ _ _ => (0 : ℚ))).result →
      r.distance_miles = none) ∧
    (∀ db (gid : Nat) (alng : ℚ) (limit : Nat) (now : Int) gEmb index cd
        (r : GroupEventRecommendation),
      r ∈ (recommend_events_to_group (Except.ok db) gid 0 alng limit now gEmb
          index cd).result → r.distance_miles = none) ∧
    (∀ db (gid : Nat) (alat : ℚ) (limit : Nat) (now : Int) gEmb index cd
        (r : GroupEventRecommendation),
      r ∈ (recommend_events_to_group (Except.ok db) gid alat 0 limit now gEmb
          index cd).result → r.distance_miles = none) ∧
    (∀ db (gid : Nat) (alat alng : ℚ) (limit : Nat) (now : Int) gEmb index
        (r : GroupEventRecommendation),
      r ∈ (recommend_events_to_group (Except.ok db) gid alat alng limit now
          gEmb index (fun _ _ _ _ => (0 : ℚ))).result →
      r.distance_miles = none) := by
  refine ⟨distance_miles_field_none_iff, ?_, ?_, ?_, ?_, ?_, ?_⟩
  · intro db uid ulng limit now gen index cd r h
    obtain ⟨q, hmk⟩ := mem_recommend_events_to_user_result h
    obtain ⟨e, _, _, _, _, _, _, _, hdist⟩ := mk_event_recommendation_eq_some hmk
    rw [hdist]
    exact (distance_miles_field_none_iff cd 0 ulng e.latitude
      e.longitude).mpr (Or.inl rfl)
  · intro db uid ulat limit now gen index cd r h
    obtain ⟨q, hmk⟩ := mem_recommend_events_to_user_result h
    obtain ⟨e, _, _, _, _, _, _, _, hdist⟩ := mk_event_recommendation_eq_some hmk
    rw [hdist]
    exact (distance_miles_field_none_iff cd ulat 0 e.latitude
      e.longitude).mpr (Or.inr (Or.inl rfl))
  · intro db uid ulat ulng limit now gen index r h
    obtain ⟨q, hmk⟩ := mem_recommend_events_to_user_result h
    obtain ⟨e, _, _, _, _, _, _, _, hdist⟩ := mk_event_recommendation_eq_some hmk
    rw [hdist]
    exact (distance_miles_field_none_iff _ ulat ulng e.latitude
      e.longitude).mpr (Or.inr (Or.inr rfl))
  · intro db gid alng limit now gEmb index cd r h
    obtain ⟨q, hmk⟩ := mem_recommend_events_to_group_result h
    obtain ⟨e, _, _, _, _, hdist⟩ := mk_group_event_recommendation_eq_some hmk
    rw [hdist]
    exact (distance_miles_field_none_iff cd 0 alng e.latitude
      e.longitude).mpr (Or.inl rfl)
  · intro db gid alat limit now gEmb index cd r h
    obtain ⟨q, hmk⟩ := mem_recommend_events_to_group_result h
    obtain ⟨e, _, _, _, _, hdist⟩ := mk_group_event_recommendation_eq_some hmk
    rw [hdist]
    exact (distance_miles_field_none_iff cd alat 0 e.latitude
      e.longitude).mpr (Or.inr (Or.inl rfl))
  · intro db gid alat alng limit now gEmb index r h
    obtain ⟨q, hmk⟩ := mem_recommend_events_to_group_result h
    obtain ⟨e, _, _, _, _, hdist⟩ := mk_group_event_recommendation_eq_some hmk
    rw [hdist]
    exact (distance_miles_field_none_iff _ alat alng e.latitude
      e.longitude).mpr (Or.inr (Or.inr rfl))

/-- Witness for C10: with a zero requester latitude a recommendation is
produced and its reported distance is `None`. -/
theorem C10_distance_truthiness_witness : recOpen0.distance_miles = none :=
  C10_distance_truthiness.2.1 dbEvents 1 0 10 1000 genNone
    (idxEventsPool [⟨1, 1/10⟩]) calcOne recOpen0
    (by
      have hres : (recommend_events_to_user (Except.ok dbEvents) 1 0 0 10
          1000 genNone (idxEventsPool [⟨1, 1/10⟩]) calcOne).result
          = [recOpen0] := rfl
      rw [hres]
      exact List.mem_singleton_self recOpen0)

/-! ### The helper-internal failure points of C2 -/

theorem generateAndStoreUserEmbedding_full_ok (db : DB) (uid : Nat)
    (gen : Except String (Option (List ℚ))) :
    generateAndStoreUserEmbedding_full db uid gen (Except.ok ()) =
      generateAndStoreUserEmbedding db uid gen := by
  unfold generateAndStoreUserEmbedding_full generateAndStoreUserEmbedding
  repeat' split
  all_goals rfl

theorem get_user_profile_embedding_full_ok (db : DB) (uid : Nat)
    (gen : Except String (Option (List ℚ))) :
    get_user_profile_embedding_full db uid gen (Except.ok ()) =
      get_user_profile_embedding db uid gen := by
  unfold get_user_profile_embedding_full get_user_profile_embedding
  repeat' split
  all_goals rfl

theorem mk_friend_recommendation_full_ok (db : DB) (cu : User) (uid : Nat)
    (excl : List Nat) (q : UserQueryResult) :
    mk_friend_recommendation_full db cu uid excl (Except.ok ()) q =
      (mk_friend_recommendation db cu uid excl q, []) := by
  unfold mk_friend_recommendation_full mk_friend_recommendation
  repeat' split
  all_goals rfl

theorem mk_friend_recommendation_full_count {db : DB} {cu : User} {uid : Nat}
    {excl : List Nat} {mexc : Except String Unit} {q : UserQueryResult}
    {r : FriendRecommendation}
    (h : (mk_friend_recommendation_full db cu uid excl mexc q).1 = some r) :
    r.mutual_friends_count =
      (get_mutual_friends_count_caught uid r.user_id db mexc).1 := by
  unfold mk_friend_recommendation_full at h
  repeat' split at h
  all_goals dsimp only at h
  all_goals try exact Option.noConfusion h
  obtain rfl := Option.some.inj h
  rfl

theorem mem_recommend_friends_full_result {db : DB} {uid limit : Nat}
    {gen : Except String (Option (List ℚ))}
    {aexc eexc mexc : Except String Unit}
    {index : List ℚ → Nat → List Nat → Except String (List UserQueryResult)}
    {r : FriendRecommendation}
    (h : r ∈ (recommend_friends_full (Except.ok db) uid limit gen aexc eexc
        mexc index).result) :
    ∃ (cu : User) (excl : List Nat) (pool : List UserQueryResult)
      (q : UserQueryResult), q ∈ pool ∧
      (mk_friend_recommendation_full db cu uid excl mexc q).1 = some r := by
  unfold recommend_friends_full at h
  dsimp only at h
  repeat' split at h
  all_goals dsimp only at h
  all_goals try exact absurd h (List.not_mem_nil r)
  · unfold format_friend_candidates_full at h
    dsimp only at h
    obtain ⟨q, hq, hmk⟩ := List.mem_filterMap.mp h
    exact ⟨_, _, _, q, List.mem_of_mem_take hq, hmk⟩

theorem mem_validEventsGiven {db : DB} {declined : List Nat} {now : Int}
    {e : Event} (h : e ∈ validEventsGiven db declined now) :
    e ∈ db.events ∧ e.is_active = true ∧ e.visibility = "public" ∧
    e.id ∉ declined ∧ e.is_expired now = false := by
  unfold validEventsGiven publicEvents at h
  obtain ⟨h2, hcond2⟩ := List.mem_filter.mp h
  obtain ⟨h1, hcond1⟩ := List.mem_filter.mp h2
  simp at hcond1 hcond2
  exact ⟨h1, hcond1.1, hcond1.2, hcond2.1, hcond2.2⟩

theorem mem_recommend_events_to_user_full_result {db : DB} {uid : Nat}
    {ulat ulng : ℚ} {limit : Nat} {now : Int}
    {gen : Except String (Option (List ℚ))}
    {aexc dexc : Except String Unit}
    {index : List ℚ → Nat → List Nat → Except String (List EventQueryResult)}
    {cd : ℚ → ℚ → ℚ → ℚ → ℚ} {r : EventRecommendation}
    (h : r ∈ (recommend_events_to_user_full (Except.ok db) uid ulat ulng
        limit now gen aexc dexc index cd).result) :
    ∃ q : EventQueryResult,
      mk_event_recommendation
        (validEventsGiven db (get_declined_event_ids_caught uid db dexc).1
          now) uid ulat ulng now cd q = some r := by
  unfold recommend_events_to_user_full at h
  dsimp only at h
  repeat' split at h
  all_goals dsimp only at h
  all_goals try exact absurd h (List.not_mem_nil r)
  · unfold format_event_candidates at h
    obtain ⟨q, _, hmk⟩ := List.mem_filterMap.mp h
    exact ⟨q, hmk⟩

/-- C2 counterexample: an internal step raising does not make the recommender
return an empty list.  When the exclusion-set query fails, an existing friend
is recommended; when the mutual-count query fails, a recommendation is
returned with the count degraded to 0 (the true count is 1); when the
declined-event query fails, an event the user declined is recommended.  In
each run the failure cause is logged but the result list is non-empty. -/
theorem C2_fail_soft_counterexample :
    ((recommend_friends_full (Except.ok dbFriendship) 1 5 genNone
        (Except.ok ()) (Except.error ("db glitch")) (Except.ok ())
        (idxUsersPool [⟨2, 1/10⟩])).result.map (fun r => r.user_id)) = [2] ∧
    2 ∈ friendIdsOf 1 dbFriendship ∧
    logExcludedIdsFail ("db glitch") ∈
      (recommend_friends_full (Except.ok dbFriendship) 1 5 genNone
        (Except.ok ()) (Except.error ("db glitch")) (Except.ok ())
        (idxUsersPool [⟨2, 1/10⟩])).logs ∧
    ((recommend_friends_full (Except.ok dbMutual) 1 5 genNone
        (Except.ok ()) (Except.ok ()) (Except.error ("db glitch"))
        (idxUsersPool [⟨2, 1/10⟩])).result.map
        (fun r => (r.user_id, r.mutual_friends_count))) = [(2, 0)] ∧
    get_mutual_friends_count 1 2 dbMutual = 1 ∧
    logMutualCountFail ("db glitch") ∈
      (recommend_friends_full (Except.ok dbMutual) 1 5 genNone
        (Except.ok ()) (Except.ok ()) (Except.error ("db glitch"))
        (idxUsersPool [⟨2, 1/10⟩])).logs ∧
    ((recommend_events_to_user_full (Except.ok dbDeclined) 1 0 0 10 1000
        genNone (Except.ok ()) (Except.error ("db glitch"))
        (idxEventsPool [⟨1, 1/10⟩]) calcOne).result.map
        (fun r => r.event_id)) = [1] ∧
    1 ∈ get_declined_event_ids 1 dbDeclined ∧
    logDeclinedIdsFail ("db glitch") ∈
      (recommend_events_to_user_full (Except.ok dbDeclined) 1 0 0 10 1000
        genNone (Except.ok ()) (Except.error ("db glitch"))
        (idxEventsPool [⟨1, 1/10⟩]) calcOne).logs := by
  refine ⟨rfl, by decide, ?_, rfl, rfl, ?_, rfl, ?_, ?_⟩
  · have hlogs : (recommend_friends_full (Except.ok dbFriendship) 1 5 genNone
        (Except.ok ()) (Except.error ("db glitch")) (Except.ok ())
        (idxUsersPool [⟨2, 1/10⟩])).logs =
        [logExcludedIdsFail ("db glitch"), logFriendsDone] := rfl
    rw [hlogs]
    exact List.mem_cons_self _ _
  · have hlogs : (recommend_friends_full (Except.ok dbMutual) 1 5 genNone
        (Except.ok ()) (Except.ok ()) (Except.error ("db glitch"))
        (idxUsersPool [⟨2, 1/10⟩])).logs =
        [logMutualCountFail ("db glitch"), logFriendsDone] := rfl
    rw [hlogs]
    exact List.mem_cons_self _ _
  · have hdecl : get_declined_event_ids 1 dbDeclined = [1] := rfl
    rw [hdecl]
    exact List.mem_singleton_self 1
  · have hlogs : (recommend_events_to_user_full (Except.ok dbDeclined) 1 0 0
        10 1000 genNone (Except.ok ()) (Except.error ("db glitch"))
        (idxEventsPool [⟨1, 1/10⟩]) calcOne).logs =
        [logDeclinedIdsFail ("db glitch"), logEventsDone] := rfl
    rw [hlogs]
    exact List.mem_cons_self _ _

/-- C2 (amended): no exception ever propagates (every path of the model is a
total function), and a failure of the session at entry, of the embedder, or
of the vector-index query makes each recommender return an empty list with
the cause logged; but a failure inside the helper computations — the
exclusion-set query, the per-candidate mutual-friend count, the
declined-event query — or in the lazy index mirror write is caught and
logged where it occurs and the recommender continues with a degraded value
(self-only exclusion, zero mutual count, no declined exclusions, ignored
mirror failure), possibly returning a non-empty list.  At non-failing helper
oracles the refined model projects onto the plain one. -/
theorem C2_fail_soft_corrected :
    (∀ (c : String) (uid limit : Nat) gen index,
      recommend_friends (Except.error c) uid limit gen index =
        ⟨[], [logFriendsFail c], []⟩) ∧
    (∀ (db : DB) (uid limit : Nat) (c : String) index (u : User),
      db.users.find? (fun x => x.id == uid) = some u →
      u.open_to_friends = true →
      getUserEmbeddingRow db.user_embeddings uid = none →
      (recommend_friends (Except.ok db) uid limit (Except.error c) index).result
          = [] ∧
      logProfileEmbFail c ∈
        (recommend_friends (Except.ok db) uid limit (Except.error c)
          index).logs) ∧
    (∀ (db : DB) (uid limit : Nat) gen (c : String) (u : User)
        (emb : List ℚ) ops elogs,
      db.users.find? (fun x => x.id == uid) = some u →
      u.open_to_friends = true →
      get_user_profile_embedding db uid gen = (some emb, ops, elogs) →
      emb.isEmpty = false →
      (recommend_friends (Except.ok db) uid limit gen
          (fun a b d => Except.error c)).result = [] ∧
      logQueryUsersFail c ∈
        (recommend_friends (Except.ok db) uid limit gen
          (fun a b d => Except.error c)).logs) ∧
    (∀ (c : String) (uid : Nat) (ulat ulng : ℚ) (limit : Nat) (now : Int)
        gen index cd,
      recommend_events_to_user (Except.error c) uid ulat ulng limit now gen
          index cd = ⟨[], [logEventsFail c], []⟩) ∧
    (∀ (db : DB) (uid : Nat) (ulat ulng : ℚ) (limit : Nat) (now : Int)
        (c : String) index cd ops elogs,
      get_user_profile_embedding db uid (Except.error c) =
          (none, ops, elogs) →
      logProfileEmbFail c ∈ elogs →
      (recommend_events_to_user (Except.ok db) uid ulat ulng limit now
          (Except.error c) index cd).result = [] ∧
      logProfileEmbFail c ∈
        (recommend_events_to_user (Except.ok db) uid ulat ulng limit now
          (Except.error c) index cd).logs) ∧
    (∀ (db : DB) (uid : Nat) (ulat ulng : ℚ) (limit : Nat) (now : Int)
        gen (c : String) cd (emb : List ℚ) ops elogs,
      get_user_profile_embedding db uid gen = (some emb, ops, elogs) →
      emb.isEmpty = false →
      (publicEvents db).isEmpty = false →
      (validEventsForUser db uid now).isEmpty = false →
      (recommend_events_to_user (Except.ok db) uid ulat ulng limit now gen
          (fun a b d => Except.error c) cd).result = [] ∧
      logQueryEventsFail c ∈
        (recommend_events_to_user (Except.ok db) uid ulat ulng limit now gen
          (fun a b d => Except.error c) cd).logs) ∧
    (∀ (c : String) (gid : Nat) (alat alng : ℚ) (limit : Nat) (now : Int)
        gEmb index cd,
      recommend_events_to_group (Except.error c) gid alat alng limit now gEmb
          index cd = ⟨[], [logGroupFail c], []⟩) ∧
    (∀ (db : DB) (gid : Nat) (alat alng : ℚ) (limit : Nat) (now : Int)
        (c : String) index cd,
      (recommend_events_to_group (Except.ok db) gid alat alng limit now
          (Except.error c) index cd).result = [] ∧
      logGroupEmbFail c ∈
        (recommend_events_to_group (Except.ok db) gid alat alng limit now
          (Except.error c) index cd).logs) ∧
    (∀ (db : DB) (gid : Nat) (alat alng : ℚ) (limit : Nat) (now : Int)
        (c : String) cd (emb : List ℚ),
      emb.isEmpty = false →
      (publicEvents db).isEmpty = false →
      (((publicEvents db).filter
          (fun e => e.is_active && !(e.is_expired now))).map
          (fun e => e.id)).isEmpty = false →
      (recommend_events_to_group (Except.ok db) gid alat alng limit now
          (Except.ok (some emb)) (fun a b d => Except.error c) cd).result
          = [] ∧
      logQueryEventsFail c ∈
        (recommend_events_to_group (Except.ok db) gid alat alng limit now
          (Except.ok (some emb)) (fun a b d => Except.error c) cd).logs) ∧
    (∀ (db : DB) (uid : Nat) gen,
      get_user_profile_embedding_full db uid gen (Except.ok ()) =
        get_user_profile_embedding db uid gen) ∧
    (∀ (db : DB) (cu : User) (uid : Nat) (excl : List Nat)
        (q : UserQueryResult),
      mk_friend_recommendation_full db cu uid excl (Except.ok ()) q =
        (mk_friend_recommendation db cu uid excl q, [])) ∧
    (∀ (db : DB) (uid limit : Nat) gen (aexc mexc : Except String Unit)
        (c : String) (pool : List UserQueryResult) (u : User)
        (emb : List ℚ) ops elogs,
      db.users.find? (fun x => x.id == uid) = some u →
      u.open_to_friends = true →
      get_user_profile_embedding_full db uid gen aexc =
        (some emb, ops, elogs) →
      emb.isEmpty = false →
      (recommend_friends_full (Except.ok db) uid limit gen aexc
          (Except.error c) mexc (fun a b d => Except.ok pool)).result =
        (format_friend_candidates_full db u uid [uid] mexc limit pool).1 ∧
      logExcludedIdsFail c ∈
        (recommend_friends_full (Except.ok db) uid limit gen aexc
          (Except.error c) mexc (fun a b d => Except.ok pool)).logs) ∧
    (∀ (db : DB) (uid limit : Nat) gen (aexc eexc : Except String Unit)
        (c : String) index (r : FriendRecommendation),
      r ∈ (recommend_friends_full (Except.ok db) uid limit gen aexc eexc
          (Except.error c) index).result →
      r.mutual_friends_count = 0) ∧
    (∀ (db : DB) (uid : Nat) (ulat ulng : ℚ) (limit : Nat) (now : Int) gen
        (aexc : Except String Unit) (c : String) index cd
        (r : EventRecommendation),
      r ∈ (recommend_events_to_user_full (Except.ok db) uid ulat ulng limit
          now gen aexc (Except.error c) index cd).result →
      ∃ e, e ∈ db.events ∧ r.event_id = e.id ∧ e.is_active = true ∧
        e.visibility = "public" ∧ e.is_expired now = false) ∧
    (∀ (db : DB) (uid : Nat) (emb : List ℚ) (c : String) (u : User),
      getUserEmbeddingRow db.user_embeddings uid = none →
      db.users.find? (fun x => x.id == uid) = some u →
      emb.isEmpty = false →
      get_user_profile_embedding_full db uid (Except.ok (some emb))
          (Except.error c) =
        (some emb, [StoreOp.stageRow, StoreOp.commit, StoreOp.indexWrite],
         [logAddUserEmbFail c])) := by
  refine ⟨?_, ?_, ?_, ?_, ?_, ?_, ?_, ?_, ?_, ?_, ?_, ?_, ?_, ?_, ?_⟩
  · intro c uid limit gen index
    rfl
  · intro db uid limit c index u hfind hopen hrow
    constructor <;>
      simp [recommend_friends, get_user_profile_embedding,
        generateAndStoreUserEmbedding, hfind, hopen, hrow]
  · intro db uid limit gen c u emb ops elogs hfind hopen hemb hne
    constructor <;>
      simp [recommend_friends, query_similar_users, format_friend_candidates,
        hfind, hopen, hemb, hne]
  · intro c uid ulat ulng limit now gen index cd
    rfl
  · intro db uid ulat ulng limit now c index cd ops elogs hemb hin
    constructor <;> simp [recommend_events_to_user, hemb]
    · exact hin
  · intro db uid ulat ulng limit now gen c cd emb ops elogs hemb hne hpub hval
    constructor <;>
      simp [recommend_events_to_user, query_similar_events,
        format_event_candidates, hemb, hne, hpub, hval]
  · intro c gid alat alng limit now gEmb index cd
    rfl
  · intro db gid alat alng limit now c index cd
    constructor <;>
      simp [recommend_events_to_group, get_group_embedding]
  · intro db gid alat alng limit now c cd emb hne hpub hids
    constructor <;>
      simp [recommend_events_to_group, get_group_embedding,
        query_similar_events, format_group_event_candidates, hne, hpub, hids]
  · exact get_user_profile_embedding_full_ok
  · exact mk_friend_recommendation_full_ok
  · intro db uid limit gen aexc mexc c pool u emb ops elogs hfind hopen
      hemb hne
    constructor <;>
      simp [recommend_friends_full, get_excluded_user_ids_caught,
        query_similar_users, hfind, hopen, hemb, hne]
  · intro db uid limit gen aexc eexc c index r h
    obtain ⟨cu, excl, pool, q, hq, hmk⟩ := mem_recommend_friends_full_result h
    exact mk_friend_recommendation_full_count hmk
  · intro db uid ulat ulng limit now gen aexc c index cd r h
    obtain ⟨q, hmk⟩ := mem_recommend_events_to_user_full_result h
    obtain ⟨e, hmem, hrid, _, _, _, _, _, _⟩ :=
      mk_event_recommendation_eq_some hmk
    obtain ⟨hdb, hact, hvis, _, hexp⟩ := mem_validEventsGiven hmem
    exact ⟨e, hdb, hrid, hact, hvis, hexp⟩
  · intro db uid emb c u hrow hfind hne
    simp [get_user_profile_embedding_full, generateAndStoreUserEmbedding_full,
      add_user_embedding_caught, hrow, hfind, hne]

/-- Witness for C2: each failure mode exercised on a concrete state — the
empty-list modes and the swallowed helper-failure modes. -/
theorem C2_fail_soft_corrected_witness :
    ((recommend_friends (Except.ok dbNoEmb) 1 5
        (Except.error ("embedder down")) idxUsersDown).result = [] ∧
      logProfileEmbFail ("embedder down") ∈
        (recommend_friends (Except.ok dbNoEmb) 1 5
          (Except.error ("embedder down")) idxUsersDown).logs) ∧
    ((recommend_friends (Except.ok dbFriends) 1 5 genNone
        (fun a b d => Except.error ("index down"))).result = [] ∧
      logQueryUsersFail ("index down") ∈
        (recommend_friends (Except.ok dbFriends) 1 5 genNone
          (fun a b d => Except.error ("index down"))).logs) ∧
    ((recommend_events_to_user (Except.ok dbNoEmb) 1 0 0 10 1000
        (Except.error ("embedder down")) idxEventsDown calcOne).result = [] ∧
      logProfileEmbFail ("embedder down") ∈
        (recommend_events_to_user (Except.ok dbNoEmb) 1 0 0 10 1000
          (Except.error ("embedder down")) idxEventsDown calcOne).logs) ∧
    ((recommend_events_to_user (Except.ok dbEvents) 1 0 0 10 1000 genNone
        (fun a b d => Except.error ("index down")) calcOne).result = [] ∧
      logQueryEventsFail ("index down") ∈
        (recommend_events_to_user (Except.ok dbEvents) 1 0 0 10 1000 genNone
          (fun a b d => Except.error ("index down")) calcOne).logs) ∧
    ((recommend_events_to_group (Except.ok dbEvents) 7 0 0 5 1000
        (Except.ok (some [1])) (fun a b d => Except.error ("index down"))
        calcOne).result = [] ∧
      logQueryEventsFail ("index down") ∈
        (recommend_events_to_group (Except.ok dbEvents) 7 0 0 5 1000
          (Except.ok (some [1])) (fun a b d => Except.error ("index down"))
          calcOne).logs) ∧
    ((recommend_friends_full (Except.ok dbFriendship) 1 5 genNone
        (Except.ok ()) (Except.error ("db glitch")) (Except.ok ())
        (fun a b d => Except.ok [⟨2, 1/10⟩])).result =
      (format_friend_candidates_full dbFriendship userA 1 [1] (Except.ok ())
        5 [⟨2, 1/10⟩]).1 ∧
      logExcludedIdsFail ("db glitch") ∈
        (recommend_friends_full (Except.ok dbFriendship) 1 5 genNone
          (Except.ok ()) (Except.error ("db glitch")) (Except.ok ())
          (fun a b d => Except.ok [⟨2, 1/10⟩])).logs) ∧
    recB.mutual_friends_count = 0 ∧
    (∃ e, e ∈ dbDeclined.events ∧ recOpen0.event_id = e.id ∧
      e.is_active = true ∧ e.visibility = "public" ∧
      e.is_expired 1000 = false) ∧
    get_user_profile_embedding_full dbNoEmb 1 (Except.ok (some [1]))
        (Except.error ("chroma down")) =
      (some [1], [StoreOp.stageRow, StoreOp.commit, StoreOp.indexWrite],
       [logAddUserEmbFail ("chroma down")]) :=
  ⟨C2_fail_soft_corrected.2.1 dbNoEmb 1 5 ("embedder down") idxUsersDown
     userA rfl rfl rfl,
   C2_fail_soft_corrected.2.2.1 dbFriends 1 5 genNone ("index down") userA
     [1] [] [] rfl rfl rfl rfl,
   C2_fail_soft_corrected.2.2.2.2.1 dbNoEmb 1 0 0 10 1000 ("embedder down")
     idxEventsDown calcOne [] [logProfileEmbFail ("embedder down")] rfl
     (List.mem_singleton_self _),
   C2_fail_soft_corrected.2.2.2.2.2.1 dbEvents 1 0 0 10 1000 genNone
     ("index down") calcOne [1] [] [] rfl rfl rfl rfl,
   C2_fail_soft_corrected.2.2.2.2.2.2.2.2.1 dbEvents 7 0 0 5 1000
     ("index down") calcOne [1] rfl rfl rfl,
   C2_fail_soft_corrected.2.2.2.2.2.2.2.2.2.2.2.1 dbFriendship 1 5 genNone
     (Except.ok ()) (Except.ok ()) ("db glitch") [⟨2, 1/10⟩] userA [1] [] []
     rfl rfl rfl rfl,
   C2_fail_soft_corrected.2.2.2.2.2.2.2.2.2.2.2.2.1 dbMutual 1 5 genNone
     (Except.ok ()) (Except.ok ()) ("db glitch")
     (idxUsersPool [⟨2, 1/10⟩]) recB
     (by
       have hres : (recommend_friends_full (Except.ok dbMutual) 1 5 genNone
           (Except.ok ()) (Except.ok ()) (Except.error ("db glitch"))
           (idxUsersPool [⟨2, 1/10⟩])).result = [recB] := rfl
       rw [hres]
       exact List.mem_singleton_self recB),
   C2_fail_soft_corrected.2.2.2.2.2.2.2.2.2.2.2.2.2.1 dbDeclined 1 0 0 10
     1000 genNone (Except.ok ()) ("db glitch") (idxEventsPool [⟨1, 1/10⟩])
     calcOne recOpen0
     (by
       have hres : (recommend_events_to_user_full (Except.ok dbDeclined) 1 0
           0 10 1000 genNone (Except.ok ()) (Except.error ("db glitch"))
           (idxEventsPool [⟨1, 1/10⟩]) calcOne).result = [recOpen0] := rfl
       rw [hres]
       exact List.mem_singleton_self recOpen0),
   C2_fail_soft_corrected.2.2.2.2.2.2.2.2.2.2.2.2.2.2 dbNoEmb 1 [1]
     ("chroma down") userA rfl rfl rfl⟩
